import Mathlib

/-!
# Product catalogue service: the write path of `productController.js`

A shallow embedding of `createProduct`, `updateProduct` and `deleteProduct`
(`src/controllers/productController.js`).  The handlers are written in explicit
state-passing style over a `World` that holds the Primary Store, the blob
store, the search index, the delivered messages and the log of every
collaborator call.  The collaborators whose code lives outside the controller
(the ODM models, the search-index service, the message publisher, the blob
bucket) are described by an `Env`: for each call it says whether the call
completes, fails inside the collaborator, or raises into the handler.
-/

namespace ProductService

/-! ## JavaScript values -/

/-- The values a request body or a document field can hold.  A number is
given by the value of the double, which decides its truthiness, together with
the string JavaScript prints for it (`String(x)`, for instance `"49.99"` or
`"1e+21"`), which is all the handlers use of a number besides its truthiness.
NaN does not occur in a parsed body. -/
inductive JsVal where
  | undefined
  | null
  | bool (b : Bool)
  | num (value : Rat) (text : String)
  | str (s : String)
deriving DecidableEq

/-- JavaScript truthiness: `undefined`, `null`, `false`, `0` and the empty
string are falsy, every other value is truthy. -/
def JsVal.truthy : JsVal → Bool
  | .undefined => false
  | .null => false
  | .bool b => b
  | .num value _ => decide (value ≠ 0)
  | .str s => decide (s ≠ "")

/-- The JavaScript expression `a || b`. -/
def JsVal.or (a b : JsVal) : JsVal := if a.truthy then a else b

/-- The JavaScript conversion `String(x)`; for a number it is the text the
number carries. -/
def jsString : JsVal → String
  | .undefined => "undefined"
  | .null => "null"
  | .bool true => "true"
  | .bool false => "false"
  | .num _ text => text
  | .str s => s

/-! ## Data model -/

/-- A blob reference handed out by the bucket. -/
abbrev BlobId := String

/-- An uploaded file as the upload middleware presents it (`req.file`). -/
structure File where
  originalname : String
  mimetype : String
  buffer : List Nat
deriving DecidableEq

/-- A category document restricted to its `name` (`.select("name")`). -/
structure Category where
  name : JsVal
deriving DecidableEq

/-- The `seller` sub-document of a product.  The identity `id` is held in its
`String(...)` form, the form in which the handlers compare identities. -/
structure Seller where
  id : String
  profileUrl : JsVal
  profileImageId : Option BlobId
deriving DecidableEq

/-- A product document (`_doc`).  An unset `image` is `undefined`, an unset
`imageId` is `none`. -/
structure Product where
  _id : String
  title : JsVal
  description : JsVal
  category_id : JsVal
  price : JsVal
  quantity : JsVal
  image : JsVal
  imageId : Option BlobId
  seller : Seller
deriving DecidableEq

/-- The object `{ ...doc, category: categoryName }` handed to the search index
and carried by the events. -/
structure Snapshot where
  doc : Product
  category : JsVal
deriving DecidableEq

/-- A message `{ type, data }` given to `sendMessage`. -/
structure Event where
  type : String
  data : Snapshot
deriving DecidableEq

/-- The JSON body of a response. -/
inductive Body where
  | message (text : String)
  | product (doc : Product)
deriving DecidableEq

/-- The scalar top-level properties of a product document by name; a name the
document does not have reads as `undefined`. -/
def Product.prop (p : Product) (key : String) : JsVal :=
  if key = "_id" then .str p._id
  else if key = "title" then p.title
  else if key = "description" then p.description
  else if key = "category_id" then p.category_id
  else if key = "price" then p.price
  else if key = "quantity" then p.quantity
  else if key = "image" then p.image
  else if key = "imageId" then
    (match p.imageId with
     | some blob => .str blob
     | none => .undefined)
  else .undefined

/-- The properties of `{ ...doc, category: categoryName }`: the spread
document with `category` written last. -/
def Snapshot.prop (s : Snapshot) (key : String) : JsVal :=
  if key = "category" then s.category else s.doc.prop key

/-- The properties of a response body. -/
def Body.prop : Body → String → JsVal
  | .message text, key => if key = "message" then .str text else .undefined
  | .product doc, key => doc.prop key

/-- An HTTP response: `res.status(status).json(body)`. -/
structure Response where
  status : Nat
  body : Body
deriving DecidableEq

/-- The fields the handlers read from `req.body`. -/
structure ReqBody where
  title : JsVal
  description : JsVal
  category_id : JsVal
  price : JsVal
  quantity : JsVal
  imageUrl : JsVal
  profileUrl : JsVal
deriving DecidableEq

/-- A request: `req.body`, `req.file`, `req.user.user_id` and `req.params.id`. -/
structure Request where
  body : ReqBody
  file : Option File
  user_id : String
  id : String
deriving DecidableEq

/-! ## Collaborators -/

/-- A call made to a collaborator, recorded whether or not it completes. -/
inductive Call where
  | findProduct (id : String)
  | findCategory (id : JsVal)
  | upload (file : File)
  | save (doc : Product)
  | sync (doc : Snapshot)
  | publish (topic : String) (ev : Event)
  | blobDelete (id : BlobId)
  | deleteOne (id : String)
  | indexDelete (id : String)
deriving DecidableEq

/-- How a call to the search-index service or to the publisher ends: the
action is done; or it failed and the collaborator absorbed the failure (the
call returns normally, nothing was done); or it raises into the handler.  A
publish is not awaited, so a failure after the call has returned cannot reach
the handler and counts as absorbed. -/
inductive Outcome where
  | done
  | absorbed
  | raises (msg : String)
deriving DecidableEq

/-- The behaviour of the collaborators during one request. -/
structure Env where
  /-- `Product.findById` rejects with this message. -/
  productFindErr : Option String
  /-- `Category.findById(id).select("name")`: rejects, or yields a document or null. -/
  categoryFindById : JsVal → Except String (Option Category)
  /-- The bucket upload: rejects, or finishes with the id of the new blob. -/
  uploadStream : File → Except String BlobId
  /-- The `_id` that `new Product(...)` assigns. -/
  newId : String
  /-- `save()` rejects with this message. -/
  saveErr : Option String
  /-- How `syncProductToElastic` ends. -/
  syncOutcome : Outcome
  /-- How `deleteProductFromElastic` ends. -/
  indexDeleteOutcome : Outcome
  /-- How `sendMessage(topic, _)` ends. -/
  sendOutcome : String → Outcome
  /-- `gfsBucket.delete(id)` rejects with this message. -/
  blobDeleteErr : BlobId → Option String
  /-- `Product.deleteOne` rejects with this message. -/
  deleteOneErr : Option String

/-- The state outside the handler. -/
structure World where
  /-- Primary Store: the products collection by `_id`. -/
  products : String → Option Product
  /-- Blob store: the bucket by blob id. -/
  blobs : BlobId → Option File
  /-- Search index: the document stored for each product id. -/
  index : String → Option Snapshot
  /-- The messages delivered so far, each with its topic, oldest first. -/
  published : List (String × Event)
  /-- Every collaborator call so far, oldest first. -/
  log : List Call

/-- Record a collaborator call. -/
def World.call (w : World) (c : Call) : World :=
  { w with log := w.log ++ [c] }

/-- The result of an awaited call: a value or a raised error, and the world
after it. -/
abbrev Step (α : Type) := Except String α × World

/-- Modelled from the spec: `Product.findById` of the missing product model
(Primary Store, lookup by id; null when absent). -/
def findProductById (env : Env) (id : String) (w : World) : Step (Option Product) :=
  match env.productFindErr with
  | some err => (.error err, w.call (.findProduct id))
  | none => (.ok (w.products id), w.call (.findProduct id))

/-- Modelled from the spec: `Category.findById(id).select("name")` of the
missing category schema (Category Resolver, read-only). -/
def findCategoryById (env : Env) (id : JsVal) (w : World) : Step (Option Category) :=
  (env.categoryFindById id, w.call (.findCategory id))

/-- Modelled from the spec: `save()` of the missing product model (Primary
Store, durable write of the document under its `_id`). -/
def save (env : Env) (doc : Product) (w : World) : Step Product :=
  match env.saveErr with
  | some err => (.error err, w.call (.save doc))
  | none =>
    (.ok doc, { w.call (.save doc) with
                products := fun i => if i = doc._id then some doc else w.products i })

/-- Modelled from the spec: `Product.deleteOne` filtered by `_id` of the missing product
model (Primary Store, removal by id). -/
def deleteOne (env : Env) (id : String) (w : World) : Step Unit :=
  match env.deleteOneErr with
  | some err => (.error err, w.call (.deleteOne id))
  | none =>
    (.ok (), { w.call (.deleteOne id) with
               products := fun i => if i = id then none else w.products i })

/-- Modelled from the spec: `syncProductToElastic` of the missing search-index
service (upsert: the document replaces the one stored for that id). -/
def syncProductToElastic (env : Env) (doc : Snapshot) (w : World) : Step Unit :=
  match env.syncOutcome with
  | .raises err => (.error err, w.call (.sync doc))
  | .absorbed => (.ok (), w.call (.sync doc))
  | .done =>
    (.ok (), { w.call (.sync doc) with
               index := fun i => if i = doc.doc._id then some doc else w.index i })

/-- Modelled from the spec: `deleteProductFromElastic` of the missing
search-index service (the document for that id is removed). -/
def deleteProductFromElastic (env : Env) (id : String) (w : World) : Step Unit :=
  match env.indexDeleteOutcome with
  | .raises err => (.error err, w.call (.indexDelete id))
  | .absorbed => (.ok (), w.call (.indexDelete id))
  | .done =>
    (.ok (), { w.call (.indexDelete id) with
               index := fun i => if i = id then none else w.index i })

/-- Modelled from the spec: `sendMessage` of the missing message-bus module
(fire-and-forget publish to a named topic; the handler does not await it). -/
def sendMessage (env : Env) (topic : String) (ev : Event) (w : World) : Step Unit :=
  match env.sendOutcome topic with
  | .raises err => (.error err, w.call (.publish topic ev))
  | .absorbed => (.ok (), w.call (.publish topic ev))
  | .done =>
    (.ok (), { w.call (.publish topic ev) with
               published := w.published ++ [(topic, ev)] })

/-- The bucket call `gfsBucket.delete(id)`. -/
def gfsBucketDelete (env : Env) (id : BlobId) (w : World) : Step Unit :=
  match env.blobDeleteErr id with
  | some err => (.error err, w.call (.blobDelete id))
  | none =>
    (.ok (), { w.call (.blobDelete id) with
               blobs := fun i => if i = id then none else w.blobs i })

/-! ## The controller -/

/-- The controller function `uploadToGridFS` (lines 15-24): stream the file into the bucket and
resolve with the id of the new blob. -/
def uploadToGridFS (env : Env) (file : File) (w : World) : Step BlobId :=
  match env.uploadStream file with
  | .error err => (.error err, w.call (.upload file))
  | .ok id =>
    (.ok id, { w.call (.upload file) with
               blobs := fun i => if i = id then some file else w.blobs i })

/-- The controller function `resolveCategoryName` (lines 27-30): the name of the category, or null. -/
def resolveCategoryName (env : Env) (categoryId : JsVal) (w : World) : Step JsVal :=
  match findCategoryById env categoryId w with
  | (.error err, w1) => (.error err, w1)
  | (.ok (some category), w1) => (.ok category.name, w1)
  | (.ok none, w1) => (.ok .null, w1)

/-- The `catch` branch shared by the handlers: status 500 with the message. -/
def serverError (msg : String) : Response := ⟨500, .message msg⟩

/-- Lines 53-58 of `createProduct`: the image URL if one is supplied, else
the uploaded file if there is one. -/
def createImage (env : Env) (req : Request) (product : Product) (w : World) :
    Step Product :=
  if req.body.imageUrl.truthy then
    (.ok { product with image := req.body.imageUrl }, w)
  else
    match req.file with
    | some file =>
      match uploadToGridFS env file w with
      | (.error err, w1) => (.error err, w1)
      | (.ok imageId, w1) => (.ok { product with imageId := some imageId }, w1)
    | none => (.ok product, w)

/-- Lines 43-50 of `createProduct`: the product built from the body, owned by
the requesting user; `new Product(...)` gives it its `_id`. -/
def newProduct (env : Env) (req : Request) : Product :=
  { _id := env.newId
    title := req.body.title
    description := req.body.description
    category_id := req.body.category_id
    price := req.body.price
    quantity := req.body.quantity
    image := .undefined
    imageId := none
    seller := { id := req.user_id, profileUrl := req.body.profileUrl,
                profileImageId := none } }

/-- The handler `createProduct` (lines 33-84). -/
def createProduct (env : Env) (req : Request) (w : World) : Response × World :=
  match resolveCategoryName env req.body.category_id w with
  | (.error err, w1) => (serverError err, w1)
  | (.ok categoryName, w1) =>
    if categoryName.truthy = false then
      (⟨404, .message "Category not found"⟩, w1)
    else
      match createImage env req (newProduct env req) w1 with
      | (.error err, w2) => (serverError err, w2)
      | (.ok product, w2) =>
        match save env product w2 with
        | (.error err, w3) => (serverError err, w3)
        | (.ok savedProduct, w3) =>
          match syncProductToElastic env ⟨savedProduct, categoryName⟩ w3 with
          | (.error err, w4) => (serverError err, w4)
          | (.ok _, w4) =>
            match sendMessage env "product_events"
                ⟨"product_created", ⟨savedProduct, categoryName⟩⟩ w4 with
            | (.error err, w5) => (serverError err, w5)
            | (.ok _, w5) =>
              match sendMessage env "product_events_for_notifications"
                  ⟨"product_created", ⟨savedProduct, categoryName⟩⟩ w5 with
              | (.error err, w6) => (serverError err, w6)
              | (.ok _, w6) => (⟨201, .product savedProduct⟩, w6)

/-- Lines 146-153 of `updateProduct`: a supplied image URL replaces the image
and clears the blob reference; else an uploaded file is stored and replaces
the blob reference and clears the URL. -/
def updateImage (env : Env) (req : Request) (product : Product) (w : World) :
    Step Product :=
  if req.body.imageUrl.truthy then
    (.ok { product with image := req.body.imageUrl, imageId := none }, w)
  else
    match req.file with
    | some file =>
      match uploadToGridFS env file w with
      | (.error err, w1) => (.error err, w1)
      | (.ok imageId, w1) =>
        (.ok { product with imageId := some imageId, image := .undefined }, w1)
    | none => (.ok product, w)

/-- Lines 140-144 of `updateProduct`: each field takes the supplied value
when it is truthy and keeps the stored one otherwise. -/
def updateFields (body : ReqBody) (product : Product) : Product :=
  { product with
    title := body.title.or product.title
    description := body.description.or product.description
    price := body.price.or product.price
    quantity := body.quantity.or product.quantity
    seller := { product.seller with
                profileUrl := body.profileUrl.or product.seller.profileUrl } }

/-- Lines 140-174 of `updateProduct`: what follows the resolution of the category name. -/
def updateTail (env : Env) (req : Request) (categoryName : JsVal) (product : Product)
    (w : World) : Response × World :=
  match updateImage env req (updateFields req.body product) w with
  | (.error err, w1) => (serverError err, w1)
  | (.ok product, w1) =>
    match save env product w1 with
    | (.error err, w2) => (serverError err, w2)
    | (.ok updatedProduct, w2) =>
      match syncProductToElastic env ⟨updatedProduct, categoryName⟩ w2 with
      | (.error err, w3) => (serverError err, w3)
      | (.ok _, w3) =>
        match sendMessage env "product_events"
            ⟨"product_updated", ⟨updatedProduct, categoryName⟩⟩ w3 with
        | (.error err, w4) => (serverError err, w4)
        | (.ok _, w4) =>
          match sendMessage env "product_events_for_notifications"
              ⟨"product_updated", ⟨updatedProduct, categoryName⟩⟩ w4 with
          | (.error err, w5) => (serverError err, w5)
          | (.ok _, w5) => (⟨200, .product updatedProduct⟩, w5)

/-- The handler `updateProduct` (lines 114-178). -/
def updateProduct (env : Env) (req : Request) (w : World) : Response × World :=
  match findProductById env req.id w with
  | (.error err, w1) => (serverError err, w1)
  | (.ok none, w1) => (⟨404, .message "Product not found"⟩, w1)
  | (.ok (some product), w1) =>
    if jsString (.str product.seller.id) ≠ jsString (.str req.user_id) then
      (⟨403, .message "Unauthorized"⟩, w1)
    else if req.body.category_id.truthy ∧
        jsString req.body.category_id ≠ jsString product.category_id then
      match findCategoryById env req.body.category_id w1 with
      | (.error err, w2) => (serverError err, w2)
      | (.ok none, w2) => (⟨404, .message "Category not found"⟩, w2)
      | (.ok (some category), w2) =>
        updateTail env req category.name
          { product with category_id := req.body.category_id } w2
    else
      match resolveCategoryName env product.category_id w1 with
      | (.error err, w2) => (serverError err, w2)
      | (.ok existingCategory, w2) =>
        updateTail env req (existingCategory.or .null) product w2

/-- A guarded bucket deletion, `if (id) await gfsBucket.delete(id)` (lines 192-198). -/
def deleteBlobIfSet (env : Env) (id : Option BlobId) (w : World) : Step Unit :=
  match id with
  | some blob => gfsBucketDelete env blob w
  | none => (.ok (), w)

/-- Lines 200-220 of `deleteProduct`: what follows the blob deletions. -/
def deleteTail (env : Env) (product : Product) (w : World) : Response × World :=
  match resolveCategoryName env product.category_id w with
  | (.error err, w1) => (serverError err, w1)
  | (.ok categoryName, w1) =>
    match deleteOne env product._id w1 with
    | (.error err, w2) => (serverError err, w2)
    | (.ok _, w2) =>
      match deleteProductFromElastic env product._id w2 with
      | (.error err, w3) => (serverError err, w3)
      | (.ok _, w3) =>
        match sendMessage env "product_events"
            ⟨"product_deleted", ⟨product, categoryName⟩⟩ w3 with
        | (.error err, w4) => (serverError err, w4)
        | (.ok _, w4) =>
          match sendMessage env "product_events_for_notifications"
              ⟨"product_deleted", ⟨product, categoryName⟩⟩ w4 with
          | (.error err, w5) => (serverError err, w5)
          | (.ok _, w5) => (⟨200, .message "Product deleted successfully"⟩, w5)

/-- The handler `deleteProduct` (lines 181-225). -/
def deleteProduct (env : Env) (req : Request) (w : World) : Response × World :=
  match findProductById env req.id w with
  | (.error err, w1) => (serverError err, w1)
  | (.ok none, w1) => (⟨404, .message "Product not found"⟩, w1)
  | (.ok (some product), w1) =>
    if jsString (.str product.seller.id) ≠ jsString (.str req.user_id) then
      (⟨403, .message "Unauthorized"⟩, w1)
    else
      match deleteBlobIfSet env product.imageId w1 with
      | (.error err, w2) => (serverError err, w2)
      | (.ok _, w2) =>
        match deleteBlobIfSet env product.seller.profileImageId w2 with
        | (.error err, w3) => (serverError err, w3)
        | (.ok _, w3) => deleteTail env product w3

/-! ## Vocabulary of the statements -/

/-- The collaborator calls made on the way from world `w` to world `v`. -/
def World.callsSince (v w : World) : List Call := v.log.drop w.log.length

/-- The four stores of `v` are those of `w`: Primary Store, blob store, search
index and delivered messages. -/
def World.sameStores (w v : World) : Prop :=
  v.products = w.products ∧ v.blobs = w.blobs ∧ v.index = w.index ∧
    v.published = w.published

/-- The call returns normally to the handler (done or failure absorbed). -/
def Outcome.returns : Outcome → Bool
  | .done => true
  | .absorbed => true
  | .raises _ => false

/-- Exactly one of the image URL and the image blob reference is set. -/
def exactlyOneImage (p : Product) : Prop :=
  (p.image ≠ .undefined ∧ p.imageId = none) ∨ (p.image = .undefined ∧ p.imageId ≠ none)

instance (p : Product) : Decidable (exactlyOneImage p) := by
  unfold exactlyOneImage; infer_instance

/-- The blob-store call a create or update makes for its image: one upload
when no truthy image URL is supplied and a file is. -/
def uploadCalls (req : Request) : List Call :=
  if req.body.imageUrl.truthy then []
  else
    match req.file with
    | some file => [.upload file]
    | none => []

/-- The blob deletions a delete makes for a product: the image blob if set,
then the seller profile blob if set. -/
def blobCalls (p : Product) : List Call :=
  (match p.imageId with
   | some blob => [Call.blobDelete blob]
   | none => []) ++
  (match p.seller.profileImageId with
   | some blob => [Call.blobDelete blob]
   | none => [])

/-- The name `resolveCategoryName` yields for a lookup result. -/
def resolvedName : Option Category → JsVal
  | some category => category.name
  | none => .null

/-! ## Sample worlds and requests -/

/-- A world with empty stores and an empty log. -/
def emptyWorld : World :=
  { products := fun _ => none, blobs := fun _ => none, index := fun _ => none,
    published := [], log := [] }

/-- Collaborators that all succeed; category `c1` is Furniture, `c2` is Garden,
`c3` has an empty name, no other category exists. -/
def okEnv : Env :=
  { productFindErr := none
    categoryFindById := fun c =>
      if c = .str "c1" then .ok (some ⟨.str "Furniture"⟩)
      else if c = .str "c2" then .ok (some ⟨.str "Garden"⟩)
      else if c = .str "c3" then .ok (some ⟨.str ""⟩)
      else .ok none
    uploadStream := fun _ => .ok "b9"
    newId := "p1"
    saveErr := none
    syncOutcome := .done
    indexDeleteOutcome := .done
    sendOutcome := fun _ => .done
    blobDeleteErr := fun _ => none
    deleteOneErr := none }

/-- A chair offered by user `u1`, stored as product `p1`, without image. -/
def chair : Product :=
  { _id := "p1", title := .str "Chair", description := .str "Oak",
    category_id := .str "c1", price := .num 4999 "4999", quantity := .num 10 "10",
    image := .undefined, imageId := none,
    seller := { id := "u1", profileUrl := .undefined, profileImageId := none } }

/-- The chair with an image blob and a seller profile blob. -/
def chairWithBlobs : Product :=
  { chair with imageId := some "b1",
               seller := { chair.seller with profileImageId := some "b2" } }

/-- A world whose Primary Store holds exactly the given product. -/
def worldWith (p : Product) : World :=
  { emptyWorld with products := fun i => if i = p._id then some p else none }

/-- An uploaded picture. -/
def photo : File := { originalname := "chair.png", mimetype := "image/png", buffer := [137, 80] }

/-- A request body with no field supplied. -/
def noBody : ReqBody :=
  { title := .undefined, description := .undefined, category_id := .undefined,
    price := .undefined, quantity := .undefined, imageUrl := .undefined,
    profileUrl := .undefined }

/-- Scenario 1: user `u1` creates a chair in category `c1`, without image. -/
def createChair : Request :=
  { body := { noBody with title := .str "Chair", description := .str "Oak",
                          category_id := .str "c1", price := .num 4999 "4999",
                          quantity := .num 10 "10" }
    file := none, user_id := "u1", id := "" }

/-- A request on product `p1` by the given user with the given body. -/
def onChair (user : String) (body : ReqBody) : Request :=
  { body := body, file := none, user_id := user, id := "p1" }

/-- The collaborators of `okEnv`, except that the search-index sync raises. -/
def syncRaisesEnv : Env := { okEnv with syncOutcome := .raises "index unavailable" }

/-- The collaborators of `okEnv`, except that the search-index service and the
publisher fail and absorb their failures. -/
def absorbingEnv : Env :=
  { okEnv with syncOutcome := .absorbed, indexDeleteOutcome := .absorbed,
               sendOutcome := fun _ => .absorbed }

/-- The collaborators of `okEnv`, except that the bucket rejects the deletion
of blob `b1`. -/
def blobFailsEnv : Env :=
  { okEnv with blobDeleteErr := fun b => if b = "b1" then some "File not found" else none }

/-- The collaborators of `okEnv`, except that the bucket rejects the deletion
of blob `b2`. -/
def profileBlobFailsEnv : Env :=
  { okEnv with blobDeleteErr := fun b => if b = "b2" then some "File not found" else none }

/-- Scenario 1 with an uploaded picture instead of no image. -/
def createChairWithPhoto : Request := { createChair with file := some photo }

/-- The chair as `createChairWithPhoto` stores it. -/
def chairWithPhoto : Product := { chair with imageId := some "b9" }

/-- Scenario 3: the owner moves the chair to category `c2` and supplies an
empty title. -/
def moveChair : Request :=
  onChair "u1" { noBody with category_id := .str "c2", title := .str "" }

/-- The owner supplies an empty category id for the chair. -/
def blankCategory : Request := onChair "u1" { noBody with category_id := .str "" }

/-- The chair stored under a category id of 24 digits. -/
def chairInLongCategory : Product :=
  { chair with category_id := .str "123456789012345677877248" }

/-- The owner supplies as category id the number with those 24 digits, which
JavaScript prints in exponent form. -/
def numericCategory : Request :=
  onChair "u1"
    { noBody with
      category_id := .num 123456789012345677877248 "1.2345678901234568e+23" }

/-- Scenario 1 in category `c3`, the category with the empty name. -/
def createInUnnamed : Request :=
  { createChair with body := { createChair.body with category_id := .str "c3" } }

/-- The event of the given type for a product under a category name. -/
def eventOf (type : String) (doc : Product) (category : JsVal) : Event :=
  { type := type, data := { doc := doc, category := category } }

/-! # Theorems -/

/-! ## Lemmas on the steps -/

@[simp] theorem call_products (w : World) (c : Call) : (w.call c).products = w.products := rfl
@[simp] theorem call_blobs (w : World) (c : Call) : (w.call c).blobs = w.blobs := rfl
@[simp] theorem call_index (w : World) (c : Call) : (w.call c).index = w.index := rfl
@[simp] theorem call_published (w : World) (c : Call) : (w.call c).published = w.published := rfl
@[simp] theorem call_log (w : World) (c : Call) : (w.call c).log = w.log ++ [c] := rfl

@[simp] theorem jsString_str (s : String) : jsString (.str s) = s := rfl

theorem truthy_ne_undefined {v : JsVal} (h : v.truthy = true) : v ≠ .undefined := by
  intro hv
  simp [hv, JsVal.truthy] at h

/-- What `updateImage` returns when it does not raise. -/
theorem updateImage_ok {env : Env} {req : Request} {b q : Product} {w w1 : World}
    (h : updateImage env req b w = (.ok q, w1)) :
    q._id = b._id ∧ q.title = b.title ∧ q.description = b.description ∧
    q.category_id = b.category_id ∧ q.price = b.price ∧ q.quantity = b.quantity ∧
    q.seller = b.seller ∧ w1.products = w.products ∧ w1.log = w.log ++ uploadCalls req ∧
    (req.body.imageUrl.truthy = true → q.image = req.body.imageUrl ∧ q.imageId = none) ∧
    (req.body.imageUrl.truthy = false → ∀ f, req.file = some f →
      q.image = .undefined ∧ ∃ blob, env.uploadStream f = .ok blob ∧ q.imageId = some blob) ∧
    (req.body.imageUrl.truthy = false → req.file = none →
      q.image = b.image ∧ q.imageId = b.imageId) := by
  unfold updateImage at h
  cases hu : req.body.imageUrl.truthy
  · cases hf : req.file with
    | none =>
      simp [hu, hf] at h
      obtain ⟨rfl, rfl⟩ := h
      simp [uploadCalls, hu, hf]
    | some f =>
      simp only [hu, hf, uploadToGridFS] at h
      cases hs : env.uploadStream f with
      | error e => simp [hs] at h
      | ok blob =>
        simp [hs] at h
        obtain ⟨rfl, rfl⟩ := h
        simp [uploadCalls, hu, hf, hs]
  · simp [hu] at h
    obtain ⟨rfl, rfl⟩ := h
    simp [uploadCalls, hu]

/-- What `createImage` returns when it does not raise. -/
theorem createImage_ok {env : Env} {req : Request} {b q : Product} {w w1 : World}
    (h : createImage env req b w = (.ok q, w1)) :
    q._id = b._id ∧ q.title = b.title ∧ q.description = b.description ∧
    q.category_id = b.category_id ∧ q.price = b.price ∧ q.quantity = b.quantity ∧
    q.seller = b.seller ∧ w1.products = w.products ∧ w1.log = w.log ++ uploadCalls req := by
  unfold createImage at h
  cases hu : req.body.imageUrl.truthy
  · cases hf : req.file with
    | none =>
      simp [hu, hf] at h
      obtain ⟨rfl, rfl⟩ := h
      simp [uploadCalls, hu, hf]
    | some f =>
      simp only [hu, hf, uploadToGridFS] at h
      cases hs : env.uploadStream f with
      | error e => simp [hs] at h
      | ok blob =>
        simp [hs] at h
        obtain ⟨rfl, rfl⟩ := h
        simp [uploadCalls, hu, hf]
  · simp [hu] at h
    obtain ⟨rfl, rfl⟩ := h
    simp [uploadCalls, hu]

/-- A successful `updateTail`: the image step and the save went through, the
later calls returned, and the calls were made in the order save, sync,
publish, publish. -/
theorem updateTail_ok {env : Env} {req : Request} {cn : JsVal} {p : Product} {w : World}
    (hok : (updateTail env req cn p w).1.status = 200) :
    ∃ q w1, updateImage env req (updateFields req.body p) w = (.ok q, w1) ∧
      env.saveErr = none ∧
      (updateTail env req cn p w).1 = ⟨200, .product q⟩ ∧
      (updateTail env req cn p w).2.products =
        (fun i => if i = q._id then some q else w1.products i) ∧
      (updateTail env req cn p w).2.log = w1.log ++
        [.save q, .sync ⟨q, cn⟩,
         .publish "product_events" ⟨"product_updated", ⟨q, cn⟩⟩,
         .publish "product_events_for_notifications" ⟨"product_updated", ⟨q, cn⟩⟩] := by
  unfold updateTail at hok ⊢
  rcases h1 : updateImage env req (updateFields req.body p) w with ⟨r1, w1⟩
  rw [h1] at hok
  cases r1 with
  | error e => simp [serverError] at hok
  | ok q =>
    refine ⟨q, w1, rfl, ?_⟩
    simp only [save, syncProductToElastic, sendMessage] at hok ⊢
    cases hs : env.saveErr <;> simp [hs, serverError] at hok ⊢
    cases h2 : env.syncOutcome <;> simp [h2, serverError] at hok ⊢ <;>
    cases h3 : env.sendOutcome "product_events" <;> simp [h3, serverError] at hok ⊢ <;>
    cases h4 : env.sendOutcome "product_events_for_notifications" <;>
      simp [h4, serverError] at hok ⊢

/-- A successful `updateProduct` on a stored product went through one of the
two category branches and then through `updateTail`. -/
theorem updateProduct_ok {env : Env} {req : Request} {w : World} {p : Product}
    (hp : w.products req.id = some p)
    (hok : (updateProduct env req w).1.status = 200) :
    env.productFindErr = none ∧ p.seller.id = req.user_id ∧
    ((req.body.category_id.truthy = true ∧
        jsString req.body.category_id ≠ jsString p.category_id ∧
        ∃ c, env.categoryFindById req.body.category_id = .ok (some c) ∧
          updateProduct env req w =
            updateTail env req c.name { p with category_id := req.body.category_id }
              ((w.call (.findProduct req.id)).call (.findCategory req.body.category_id))) ∨
     (¬ (req.body.category_id.truthy = true ∧
          jsString req.body.category_id ≠ jsString p.category_id) ∧
        ∃ o, env.categoryFindById p.category_id = .ok o ∧
          updateProduct env req w =
            updateTail env req ((resolvedName o).or .null) p
              ((w.call (.findProduct req.id)).call (.findCategory p.category_id)))) := by
  unfold updateProduct at hok ⊢
  simp only [findProductById] at hok ⊢
  cases hf : env.productFindErr with
  | some e => simp [hf, serverError] at hok
  | none =>
    simp only [hf, hp] at hok ⊢
    by_cases hown : p.seller.id = req.user_id
    · simp only [jsString_str, hown, ne_eq, not_true_eq_false, if_false, true_and] at hok ⊢
      by_cases hch : req.body.category_id.truthy = true ∧
          jsString req.body.category_id ≠ jsString p.category_id
      · rw [if_pos hch] at hok ⊢
        simp only [findCategoryById] at hok ⊢
        left
        refine ⟨hch.1, hch.2, ?_⟩
        cases hc : env.categoryFindById req.body.category_id with
        | error e => simp [hc, serverError] at hok
        | ok o =>
          cases o with
          | none => simp [hc] at hok
          | some c => exact ⟨c, rfl, by simp⟩
      · rw [if_neg hch] at hok ⊢
        simp only [resolveCategoryName, findCategoryById] at hok ⊢
        right
        refine ⟨hch, ?_⟩
        cases hc : env.categoryFindById p.category_id with
        | error e => simp [hc, serverError] at hok
        | ok o =>
          cases o with
          | none => exact ⟨none, rfl, by simp [resolvedName]⟩
          | some c => exact ⟨some c, rfl, by simp [resolvedName]⟩
    · simp [hown] at hok

/-- After a save that went through, `createProduct` keeps the saved document
in the Primary Store; it answers 201 when the later calls return and 500 when
one of them raises. -/
theorem create_after_save (env : Env) (req : Request) (w : World) (q : Product)
    (hsave : env.saveErr = none)
    (hcall : Call.save q ∈ (createProduct env req w).2.callsSince w) :
    (createProduct env req w).2.products q._id = some q ∧
    ((env.syncOutcome.returns = true ∧ (env.sendOutcome "product_events").returns = true ∧
        (env.sendOutcome "product_events_for_notifications").returns = true) →
      (createProduct env req w).1 = ⟨201, .product q⟩) ∧
    (¬ (env.syncOutcome.returns = true ∧ (env.sendOutcome "product_events").returns = true ∧
        (env.sendOutcome "product_events_for_notifications").returns = true) →
      (createProduct env req w).1.status = 500) := by
  unfold createProduct at hcall ⊢
  simp only [resolveCategoryName, findCategoryById, createImage, uploadToGridFS, save,
    syncProductToElastic, sendMessage, World.callsSince, newProduct] at hcall ⊢
  rcases hc : env.categoryFindById req.body.category_id with e | (_ | c)
  · simp [hc] at hcall
  · simp [hc, JsVal.truthy] at hcall
  · cases hn : c.name.truthy
    · simp [hc, hn] at hcall
    · cases hu : req.body.imageUrl.truthy
      · rcases hf : req.file with _ | f
        · simp only [hc, hn, hu, hf, hsave] at hcall ⊢
          cases h2 : env.syncOutcome <;> cases h3 : env.sendOutcome "product_events" <;>
            cases h4 : env.sendOutcome "product_events_for_notifications" <;>
            simp [h2, h3, h4, serverError, Outcome.returns] at hcall ⊢ <;>
            subst hcall <;> simp
        · rcases hs : env.uploadStream f with e | blob
          · simp [hc, hn, hu, hf, hs] at hcall
          · simp only [hc, hn, hu, hf, hs, hsave] at hcall ⊢
            cases h2 : env.syncOutcome <;> cases h3 : env.sendOutcome "product_events" <;>
              cases h4 : env.sendOutcome "product_events_for_notifications" <;>
              simp [h2, h3, h4, serverError, Outcome.returns] at hcall ⊢ <;>
              subst hcall <;> simp
      · simp only [hc, hn, hu, hsave] at hcall ⊢
        cases h2 : env.syncOutcome <;> cases h3 : env.sendOutcome "product_events" <;>
          cases h4 : env.sendOutcome "product_events_for_notifications" <;>
          simp [h2, h3, h4, serverError, Outcome.returns] at hcall ⊢ <;>
          subst hcall <;> simp

/-- The same for `updateTail`, from the world `w0` in which the request began. -/
theorem updateTail_after_save (env : Env) (req : Request) (cn : JsVal) (p q : Product)
    (w0 w : World) (pre : List Call) (hlog : w.log = w0.log ++ pre)
    (hpre : Call.save q ∉ pre)
    (hsave : env.saveErr = none)
    (hcall : Call.save q ∈ (updateTail env req cn p w).2.callsSince w0) :
    (updateTail env req cn p w).2.products q._id = some q ∧
    ((env.syncOutcome.returns = true ∧ (env.sendOutcome "product_events").returns = true ∧
        (env.sendOutcome "product_events_for_notifications").returns = true) →
      (updateTail env req cn p w).1 = ⟨200, .product q⟩) ∧
    (¬ (env.syncOutcome.returns = true ∧ (env.sendOutcome "product_events").returns = true ∧
        (env.sendOutcome "product_events_for_notifications").returns = true) →
      (updateTail env req cn p w).1.status = 500) := by
  unfold updateTail at hcall ⊢
  simp only [updateImage, uploadToGridFS, save, syncProductToElastic, sendMessage,
    World.callsSince] at hcall ⊢
  cases hu : req.body.imageUrl.truthy
  · rcases hf : req.file with _ | f
    · simp only [hu, hf, hsave] at hcall ⊢
      cases h2 : env.syncOutcome <;> cases h3 : env.sendOutcome "product_events" <;>
        cases h4 : env.sendOutcome "product_events_for_notifications" <;>
        simp [h2, h3, h4, serverError, Outcome.returns, hlog, hpre] at hcall ⊢ <;>
        subst hcall <;> simp
    · rcases hs : env.uploadStream f with e | blob
      · simp [hu, hf, hs, hlog, hpre] at hcall
      · simp only [hu, hf, hs, hsave] at hcall ⊢
        cases h2 : env.syncOutcome <;> cases h3 : env.sendOutcome "product_events" <;>
          cases h4 : env.sendOutcome "product_events_for_notifications" <;>
          simp [h2, h3, h4, serverError, Outcome.returns, hlog, hpre] at hcall ⊢ <;>
          subst hcall <;> simp
  · simp only [hu, hsave] at hcall ⊢
    cases h2 : env.syncOutcome <;> cases h3 : env.sendOutcome "product_events" <;>
      cases h4 : env.sendOutcome "product_events_for_notifications" <;>
      simp [h2, h3, h4, serverError, Outcome.returns, hlog, hpre] at hcall ⊢ <;>
      subst hcall <;> simp

/-- After a save that went through, `updateProduct` keeps the saved document
in the Primary Store; it answers 200 when the later calls return and 500 when
one of them raises. -/
theorem update_after_save (env : Env) (req : Request) (w : World) (q : Product)
    (hsave : env.saveErr = none)
    (hcall : Call.save q ∈ (updateProduct env req w).2.callsSince w) :
    (updateProduct env req w).2.products q._id = some q ∧
    ((env.syncOutcome.returns = true ∧ (env.sendOutcome "product_events").returns = true ∧
        (env.sendOutcome "product_events_for_notifications").returns = true) →
      (updateProduct env req w).1 = ⟨200, .product q⟩) ∧
    (¬ (env.syncOutcome.returns = true ∧ (env.sendOutcome "product_events").returns = true ∧
        (env.sendOutcome "product_events_for_notifications").returns = true) →
      (updateProduct env req w).1.status = 500) := by
  unfold updateProduct at hcall ⊢
  simp only [findProductById] at hcall ⊢
  rcases hf : env.productFindErr with _ | e
  · rcases hp : w.products req.id with _ | p
    · simp [hf, hp, World.callsSince] at hcall
    · simp only [hf, hp, jsString_str] at hcall ⊢
      by_cases hown : p.seller.id = req.user_id
      · simp only [hown, ne_eq, not_true_eq_false, if_false] at hcall ⊢
        by_cases hch : req.body.category_id.truthy = true ∧
            ¬ jsString req.body.category_id = jsString p.category_id
        · rw [if_pos hch] at hcall ⊢
          simp only [findCategoryById] at hcall ⊢
          rcases hc : env.categoryFindById req.body.category_id with e | (_ | c)
          · simp [hc, World.callsSince] at hcall
          · simp [hc, World.callsSince] at hcall
          · simp only [hc] at hcall ⊢
            exact updateTail_after_save env req _ _ q w _
              [.findProduct req.id, .findCategory req.body.category_id]
              (by simp) (by simp) hsave hcall
        · rw [if_neg hch] at hcall ⊢
          simp only [resolveCategoryName, findCategoryById] at hcall ⊢
          rcases hc : env.categoryFindById p.category_id with e | (_ | c)
          · simp [hc, World.callsSince] at hcall
          · simp only [hc] at hcall ⊢
            exact updateTail_after_save env req _ _ q w _
              [.findProduct req.id, .findCategory p.category_id]
              (by simp) (by simp) hsave hcall
          · simp only [hc] at hcall ⊢
            exact updateTail_after_save env req _ _ q w _
              [.findProduct req.id, .findCategory p.category_id]
              (by simp) (by simp) hsave hcall
      · simp [hown, World.callsSince] at hcall
  · simp [hf, World.callsSince] at hcall

/-- The same for `deleteTail`, from the world `w0` in which the request began. -/
theorem deleteTail_after_deleteOne (env : Env) (p : Product) (w0 w : World) (i : String)
    (pre : List Call) (hlog : w.log = w0.log ++ pre) (hpre : Call.deleteOne i ∉ pre)
    (hdel : env.deleteOneErr = none)
    (hcall : Call.deleteOne i ∈ (deleteTail env p w).2.callsSince w0) :
    (deleteTail env p w).2.products i = none ∧
    ((env.indexDeleteOutcome.returns = true ∧
        (env.sendOutcome "product_events").returns = true ∧
        (env.sendOutcome "product_events_for_notifications").returns = true) →
      (deleteTail env p w).1 = ⟨200, .message "Product deleted successfully"⟩) ∧
    (¬ (env.indexDeleteOutcome.returns = true ∧
        (env.sendOutcome "product_events").returns = true ∧
        (env.sendOutcome "product_events_for_notifications").returns = true) →
      (deleteTail env p w).1.status = 500) := by
  unfold deleteTail at hcall ⊢
  simp only [resolveCategoryName, findCategoryById, deleteOne, deleteProductFromElastic,
    sendMessage, World.callsSince] at hcall ⊢
  rcases hc : env.categoryFindById p.category_id with e | (_ | c) <;>
    cases h2 : env.indexDeleteOutcome <;>
    cases h3 : env.sendOutcome "product_events" <;>
    cases h4 : env.sendOutcome "product_events_for_notifications" <;>
    simp [hc, hdel, h2, h3, h4, serverError, Outcome.returns, hlog, hpre] at hcall ⊢ <;>
    subst hcall <;> simp

/-- After a `deleteOne` that went through, `deleteProduct` leaves the record
removed; it answers 200 when the later calls return and 500 when one of them
raises. -/
theorem delete_after_deleteOne (env : Env) (req : Request) (w : World) (i : String)
    (hdel : env.deleteOneErr = none)
    (hcall : Call.deleteOne i ∈ (deleteProduct env req w).2.callsSince w) :
    (deleteProduct env req w).2.products i = none ∧
    ((env.indexDeleteOutcome.returns = true ∧
        (env.sendOutcome "product_events").returns = true ∧
        (env.sendOutcome "product_events_for_notifications").returns = true) →
      (deleteProduct env req w).1 = ⟨200, .message "Product deleted successfully"⟩) ∧
    (¬ (env.indexDeleteOutcome.returns = true ∧
        (env.sendOutcome "product_events").returns = true ∧
        (env.sendOutcome "product_events_for_notifications").returns = true) →
      (deleteProduct env req w).1.status = 500) := by
  unfold deleteProduct at hcall ⊢
  simp only [findProductById, deleteBlobIfSet, gfsBucketDelete] at hcall ⊢
  rcases hf : env.productFindErr with _ | e
  · rcases hp : w.products req.id with _ | p
    · simp [hf, hp, World.callsSince] at hcall
    · simp only [hf, hp, jsString_str] at hcall ⊢
      by_cases hown : p.seller.id = req.user_id
      · simp only [hown, ne_eq, not_true_eq_false, if_false] at hcall ⊢
        rcases hi : p.imageId with _ | b1 <;>
        rcases hj : p.seller.profileImageId with _ | b2 <;>
        simp only [hi, hj] at hcall ⊢
        · exact deleteTail_after_deleteOne env p w _ i [.findProduct req.id]
            (by simp) (by simp) hdel hcall
        · rcases hb2 : env.blobDeleteErr b2 with _ | e2
          · simp only [hb2] at hcall ⊢
            exact deleteTail_after_deleteOne env p w _ i
              [.findProduct req.id, .blobDelete b2] (by simp) (by simp) hdel hcall
          · simp [hb2, World.callsSince] at hcall
        · rcases hb1 : env.blobDeleteErr b1 with _ | e1
          · simp only [hb1] at hcall ⊢
            exact deleteTail_after_deleteOne env p w _ i
              [.findProduct req.id, .blobDelete b1] (by simp) (by simp) hdel hcall
          · simp [hb1, World.callsSince] at hcall
        · rcases hb1 : env.blobDeleteErr b1 with _ | e1
          · rcases hb2 : env.blobDeleteErr b2 with _ | e2
            · simp only [hb1, hb2] at hcall ⊢
              exact deleteTail_after_deleteOne env p w _ i
                [.findProduct req.id, .blobDelete b1, .blobDelete b2]
                (by simp) (by simp) hdel hcall
            · simp [hb1, hb2, World.callsSince] at hcall
          · simp [hb1, World.callsSince] at hcall
      · simp [hown, World.callsSince] at hcall
  · simp [hf, World.callsSince] at hcall

/-- The image step of an update leaves the Primary Store, the search index
and the delivered messages as they were. -/
theorem updateImage_stores {env : Env} {req : Request} {b : Product} {w : World} :
    (updateImage env req b w).2.products = w.products ∧
    (updateImage env req b w).2.index = w.index ∧
    (updateImage env req b w).2.published = w.published := by
  unfold updateImage
  cases hu : req.body.imageUrl.truthy
  · rcases hf : req.file with _ | f
    · simp
    · simp only [uploadToGridFS]
      rcases hs : env.uploadStream f with e | blob <;> simp
  · simp

/-- The image step of a create leaves the Primary Store, the search index and
the delivered messages as they were. -/
theorem createImage_stores {env : Env} {req : Request} {b : Product} {w : World} :
    (createImage env req b w).2.products = w.products ∧
    (createImage env req b w).2.index = w.index ∧
    (createImage env req b w).2.published = w.published := by
  unfold createImage
  cases hu : req.body.imageUrl.truthy
  · rcases hf : req.file with _ | f
    · simp
    · simp only [uploadToGridFS]
      rcases hs : env.uploadStream f with e | blob <;> simp
  · simp

/-- With the search index and the publisher doing their work, a successful
`updateTail` indexes the snapshot and delivers both events. -/
theorem updateTail_done {env : Env} {req : Request} {cn : JsVal} {p q : Product}
    {w w1 : World}
    (himg : updateImage env req (updateFields req.body p) w = (.ok q, w1))
    (hsave : env.saveErr = none) (hsync : env.syncOutcome = .done)
    (hsend : ∀ t, env.sendOutcome t = .done) :
    (updateTail env req cn p w).2.index =
      (fun i => if i = q._id then some ⟨q, cn⟩ else w1.index i) ∧
    (updateTail env req cn p w).2.published = w1.published ++
      [("product_events", ⟨"product_updated", ⟨q, cn⟩⟩),
       ("product_events_for_notifications", ⟨"product_updated", ⟨q, cn⟩⟩)] := by
  unfold updateTail
  simp [himg, save, hsave, syncProductToElastic, hsync, sendMessage, hsend]

/-- A successful `createProduct`: the category resolved to a truthy name, the
image step and the save went through, the later calls returned, and the calls
were made in the order save, sync, publish, publish. -/
theorem createProduct_ok {env : Env} {req : Request} {w : World}
    (hok : (createProduct env req w).1.status = 201) :
    ∃ c q w1, env.categoryFindById req.body.category_id = .ok (some c) ∧
      c.name.truthy = true ∧
      createImage env req (newProduct env req) (w.call (.findCategory req.body.category_id))
        = (.ok q, w1) ∧
      env.saveErr = none ∧
      (createProduct env req w).1 = ⟨201, .product q⟩ ∧
      (createProduct env req w).2.products =
        (fun i => if i = q._id then some q else w1.products i) ∧
      (createProduct env req w).2.log = w1.log ++
        [.save q, .sync ⟨q, c.name⟩,
         .publish "product_events" ⟨"product_created", ⟨q, c.name⟩⟩,
         .publish "product_events_for_notifications" ⟨"product_created", ⟨q, c.name⟩⟩] := by
  unfold createProduct at hok ⊢
  simp only [resolveCategoryName, findCategoryById] at hok ⊢
  rcases hc : env.categoryFindById req.body.category_id with e | (_ | c)
  · simp [hc, serverError] at hok
  · simp [hc, JsVal.truthy] at hok
  · cases hn : c.name.truthy
    · simp [hc, hn] at hok
    · simp only [hc, hn] at hok ⊢
      rcases h1 : createImage env req (newProduct env req)
          (w.call (.findCategory req.body.category_id)) with ⟨r1, w1⟩
      rw [h1] at hok
      cases r1 with
      | error e => simp [serverError] at hok
      | ok q =>
        refine ⟨c, q, w1, rfl, hn, rfl, ?_⟩
        simp only [save, syncProductToElastic, sendMessage] at hok ⊢
        cases hs : env.saveErr <;> simp [hs, serverError] at hok ⊢
        cases h2 : env.syncOutcome <;> simp [h2, serverError] at hok ⊢ <;>
        cases h3 : env.sendOutcome "product_events" <;> simp [h3, serverError] at hok ⊢ <;>
        cases h4 : env.sendOutcome "product_events_for_notifications" <;>
          simp [h4, serverError] at hok ⊢

/-- With the search index and the publisher doing their work, a successful
`createProduct` indexes the snapshot and delivers both events. -/
theorem createProduct_done {env : Env} {req : Request} {w w1 : World} {c : Category}
    {q : Product}
    (hc : env.categoryFindById req.body.category_id = .ok (some c))
    (hn : c.name.truthy = true)
    (himg : createImage env req (newProduct env req)
      (w.call (.findCategory req.body.category_id)) = (.ok q, w1))
    (hsave : env.saveErr = none) (hsync : env.syncOutcome = .done)
    (hsend : ∀ t, env.sendOutcome t = .done) :
    (createProduct env req w).2.index =
      (fun i => if i = q._id then some ⟨q, c.name⟩ else w1.index i) ∧
    (createProduct env req w).2.published = w1.published ++
      [("product_events", ⟨"product_created", ⟨q, c.name⟩⟩),
       ("product_events_for_notifications", ⟨"product_created", ⟨q, c.name⟩⟩)] := by
  unfold createProduct
  simp [resolveCategoryName, findCategoryById, hc, hn, himg, save, hsave,
    syncProductToElastic, hsync, sendMessage, hsend]

/-- A successful `updateProduct` on a stored product, in full: which category
was looked up and which name is used, the response, the saved document, the
calls in their order, and what the search index and the publisher then hold. -/
theorem updateProduct_ok_calls {env : Env} {req : Request} {w : World} {p : Product}
    (hp : w.products req.id = some p)
    (hok : (updateProduct env req w).1.status = 200) :
    ∃ q cn lookedUp,
      ((req.body.category_id.truthy = true ∧
          jsString req.body.category_id ≠ jsString p.category_id ∧
          lookedUp = req.body.category_id ∧ q.category_id = req.body.category_id ∧
          ∃ c, env.categoryFindById req.body.category_id = .ok (some c) ∧ cn = c.name) ∨
       (¬ (req.body.category_id.truthy = true ∧
            jsString req.body.category_id ≠ jsString p.category_id) ∧
          lookedUp = p.category_id ∧ q.category_id = p.category_id ∧
          ∃ o, env.categoryFindById p.category_id = .ok o ∧
            cn = (resolvedName o).or .null)) ∧
      (updateProduct env req w).1 = ⟨200, .product q⟩ ∧
      q._id = p._id ∧
      (updateProduct env req w).2.products q._id = some q ∧
      (updateProduct env req w).2.callsSince w =
        [.findProduct req.id, .findCategory lookedUp] ++ uploadCalls req ++
          [.save q, .sync ⟨q, cn⟩,
           .publish "product_events" ⟨"product_updated", ⟨q, cn⟩⟩,
           .publish "product_events_for_notifications" ⟨"product_updated", ⟨q, cn⟩⟩] ∧
      (env.syncOutcome = .done → (∀ t, env.sendOutcome t = .done) →
        (updateProduct env req w).2.index q._id = some ⟨q, cn⟩ ∧
        (updateProduct env req w).2.published = w.published ++
          [("product_events", ⟨"product_updated", ⟨q, cn⟩⟩),
           ("product_events_for_notifications", ⟨"product_updated", ⟨q, cn⟩⟩)]) := by
  obtain ⟨-, -, hbr⟩ := updateProduct_ok hp hok
  have key : ∀ (cn : JsVal) (b : Product) (lookedUp : JsVal), b._id = p._id →
      updateProduct env req w = updateTail env req cn b
        ((w.call (.findProduct req.id)).call (.findCategory lookedUp)) →
      ∃ q, q.category_id = b.category_id ∧
        (updateProduct env req w).1 = ⟨200, .product q⟩ ∧
        q._id = p._id ∧
        (updateProduct env req w).2.products q._id = some q ∧
        (updateProduct env req w).2.callsSince w =
          [.findProduct req.id, .findCategory lookedUp] ++ uploadCalls req ++
            [.save q, .sync ⟨q, cn⟩,
             .publish "product_events" ⟨"product_updated", ⟨q, cn⟩⟩,
             .publish "product_events_for_notifications" ⟨"product_updated", ⟨q, cn⟩⟩] ∧
        (env.syncOutcome = .done → (∀ t, env.sendOutcome t = .done) →
          (updateProduct env req w).2.index q._id = some ⟨q, cn⟩ ∧
          (updateProduct env req w).2.published = w.published ++
            [("product_events", ⟨"product_updated", ⟨q, cn⟩⟩),
             ("product_events_for_notifications", ⟨"product_updated", ⟨q, cn⟩⟩)]) := by
    intro cn b lookedUp hbid heq
    rw [heq] at hok ⊢
    obtain ⟨q, w1, himg, hsave, hresp, hprod, hlog⟩ := updateTail_ok hok
    obtain ⟨hid, -, -, hcat, -, -, -, -, hl1, -, -, -⟩ := updateImage_ok himg
    have hst := @updateImage_stores env req (updateFields req.body b)
      ((w.call (.findProduct req.id)).call (.findCategory lookedUp))
    rw [himg] at hst
    refine ⟨q, ?_, hresp, ?_, ?_, ?_, ?_⟩
    · rw [hcat]; simp [updateFields]
    · rw [hid]; simpa [updateFields] using hbid
    · rw [hprod]; simp
    · simp [World.callsSince, hlog, hl1]
    · intro hsync hsend
      obtain ⟨hidx, hpub⟩ := @updateTail_done env req cn b q _ w1 himg hsave hsync hsend
      constructor
      · rw [hidx]; simp
      · rw [hpub, hst.2.2]; simp
  rcases hbr with ⟨h1, h2, c, hc, heq⟩ | ⟨hch, o, ho, heq⟩
  · obtain ⟨q, hcat, rest⟩ :=
      key c.name { p with category_id := req.body.category_id } req.body.category_id rfl heq
    exact ⟨q, c.name, req.body.category_id,
      Or.inl ⟨h1, h2, rfl, hcat, c, hc, rfl⟩, rest⟩
  · obtain ⟨q, hcat, rest⟩ := key ((resolvedName o).or .null) p p.category_id rfl heq
    exact ⟨q, (resolvedName o).or .null, p.category_id,
      Or.inr ⟨hch, rfl, hcat, o, ho, rfl⟩, rest⟩

/-- What `createProduct` does at its category check: it answers 404, after the
lookup alone, exactly when the lookup returns and the name it yields is falsy
(no category, or a category whose name is falsy). -/
theorem createProduct_notFound_iff (env : Env) (req : Request) (w : World) :
    (createProduct env req w).1.status = 404 ↔
      ∃ o, env.categoryFindById req.body.category_id = .ok o ∧
        (resolvedName o).truthy = false := by
  unfold createProduct
  simp only [resolveCategoryName, findCategoryById]
  rcases hc : env.categoryFindById req.body.category_id with e | (_ | c)
  · simp [serverError]
  · simp [resolvedName, JsVal.truthy]
  · cases hn : c.name.truthy
    · simp [resolvedName, hn]
    · simp only [hn, Bool.true_eq_false, if_false, resolvedName]
      rcases h1 : createImage env req (newProduct env req)
          (w.call (.findCategory req.body.category_id)) with ⟨r1, w1⟩
      cases r1 with
      | error e => simp [serverError, hn]
      | ok q =>
        simp only [save, syncProductToElastic, sendMessage]
        cases hs : env.saveErr
        · cases h2 : env.syncOutcome <;> cases h3 : env.sendOutcome "product_events" <;>
            cases h4 : env.sendOutcome "product_events_for_notifications" <;>
            simp [serverError, hn]
        · simp [serverError, hn]

/-- A `createProduct` that answers 404 made the category lookup and no other
call, and left every store as it was. -/
theorem createProduct_notFound_no_effect (env : Env) (req : Request) (w : World)
    (h : (createProduct env req w).1.status = 404) :
    w.sameStores (createProduct env req w).2 ∧
    (createProduct env req w).2.callsSince w = [.findCategory req.body.category_id] := by
  obtain ⟨o, hc, hn⟩ := (createProduct_notFound_iff env req w).1 h
  cases o with
  | none =>
    simp [createProduct, resolveCategoryName, findCategoryById, hc, JsVal.truthy,
      World.sameStores, World.callsSince]
  | some c =>
    have hn2 : c.name.truthy = false := hn
    simp [createProduct, resolveCategoryName, findCategoryById, hc, hn2,
      World.sameStores, World.callsSince]

/-! ## C1: a request by another user than the owner -/

/-- C1: when the requesting user is not the seller of the stored product,
`updateProduct` and `deleteProduct` both answer 403; the Primary Store, the blob
store, the search index and the delivered messages are unchanged, and the only
collaborator call made is the lookup of the product. -/
theorem not_owner_forbidden_no_effect (env : Env) (req : Request) (w : World) (p : Product)
    (hfind : env.productFindErr = none) (hp : w.products req.id = some p)
    (hne : req.user_id ≠ p.seller.id) :
    ((updateProduct env req w).1 = ⟨403, .message "Unauthorized"⟩ ∧
      w.sameStores (updateProduct env req w).2 ∧
      (updateProduct env req w).2.callsSince w = [.findProduct req.id]) ∧
    ((deleteProduct env req w).1 = ⟨403, .message "Unauthorized"⟩ ∧
      w.sameStores (deleteProduct env req w).2 ∧
      (deleteProduct env req w).2.callsSince w = [.findProduct req.id]) := by
  have hne2 : ¬ p.seller.id = req.user_id := fun h => hne h.symm
  simp [updateProduct, deleteProduct, findProductById, hfind, hp, hne2,
    World.sameStores, World.callsSince]

/-- C1 at a concrete input: user `u2` on the chair of user `u1`. -/
theorem not_owner_forbidden_no_effect_witness :
    ((updateProduct okEnv (onChair "u2" noBody) (worldWith chair)).1
        = ⟨403, .message "Unauthorized"⟩ ∧
      (worldWith chair).sameStores
        (updateProduct okEnv (onChair "u2" noBody) (worldWith chair)).2 ∧
      (updateProduct okEnv (onChair "u2" noBody) (worldWith chair)).2.callsSince
        (worldWith chair) = [.findProduct "p1"]) ∧
    ((deleteProduct okEnv (onChair "u2" noBody) (worldWith chair)).1
        = ⟨403, .message "Unauthorized"⟩ ∧
      (worldWith chair).sameStores
        (deleteProduct okEnv (onChair "u2" noBody) (worldWith chair)).2 ∧
      (deleteProduct okEnv (onChair "u2" noBody) (worldWith chair)).2.callsSince
        (worldWith chair) = [.findProduct "p1"]) :=
  not_owner_forbidden_no_effect okEnv (onChair "u2" noBody) (worldWith chair) chair
    rfl (by decide) (by decide)

/-! ## C2: the field update policy -/

/-- C2: after a successful `updateProduct` the document the Primary Store
holds for the product has, in each of title, description, price, quantity and
seller.profileUrl, the supplied value when that is truthy and the stored value
otherwise; when all five supplied values are falsy, no category id and no
image is supplied, the stored product is unchanged. -/
theorem update_field_policy (env : Env) (req : Request) (w : World) (p : Product)
    (hp : w.products req.id = some p)
    (hok : (updateProduct env req w).1.status = 200) :
    ∃ q, (updateProduct env req w).2.products p._id = some q ∧
      q.title = (if req.body.title.truthy then req.body.title else p.title) ∧
      q.description =
        (if req.body.description.truthy then req.body.description else p.description) ∧
      q.price = (if req.body.price.truthy then req.body.price else p.price) ∧
      q.quantity = (if req.body.quantity.truthy then req.body.quantity else p.quantity) ∧
      q.seller.profileUrl =
        (if req.body.profileUrl.truthy then req.body.profileUrl else p.seller.profileUrl) ∧
      (req.body.title.truthy = false → req.body.description.truthy = false →
        req.body.price.truthy = false → req.body.quantity.truthy = false →
        req.body.profileUrl.truthy = false → req.body.category_id.truthy = false →
        req.body.imageUrl.truthy = false → req.file = none →
        q = p ∧ (updateProduct env req w).2.products req.id = some p) := by
  obtain ⟨-, -, hbr⟩ := updateProduct_ok hp hok
  rcases hbr with ⟨hcid, -, c, -, heq⟩ | ⟨hch, o, -, heq⟩
  · rw [heq] at hok ⊢
    obtain ⟨q, w1, himg, -, -, hprod, -⟩ := updateTail_ok hok
    obtain ⟨hid, ht, hd, hcat, hpr, hqu, hse, hst, -, -, -, -⟩ := updateImage_ok himg
    refine ⟨q, ?_, ?_, ?_, ?_, ?_, ?_, ?_⟩
    · rw [hprod]; simp [hid, updateFields]
    · rw [ht]; simp [updateFields, JsVal.or]
    · rw [hd]; simp [updateFields, JsVal.or]
    · rw [hpr]; simp [updateFields, JsVal.or]
    · rw [hqu]; simp [updateFields, JsVal.or]
    · rw [hse]; simp [updateFields, JsVal.or]
    · intro _ _ _ _ _ h6
      rw [h6] at hcid
      exact absurd hcid (by simp)
  · rw [heq] at hok ⊢
    obtain ⟨q, w1, himg, -, -, hprod, -⟩ := updateTail_ok hok
    obtain ⟨hid, ht, hd, hcat, hpr, hqu, hse, hst, -, -, -, hkeep⟩ := updateImage_ok himg
    refine ⟨q, ?_, ?_, ?_, ?_, ?_, ?_, ?_⟩
    · rw [hprod]; simp [hid, updateFields]
    · rw [ht]; simp [updateFields, JsVal.or]
    · rw [hd]; simp [updateFields, JsVal.or]
    · rw [hpr]; simp [updateFields, JsVal.or]
    · rw [hqu]; simp [updateFields, JsVal.or]
    · rw [hse]; simp [updateFields, JsVal.or]
    · intro h1 h2 h3 h4 h5 _ h7 h8
      obtain ⟨him, hbl⟩ := hkeep h7 h8
      have hqp : q = p := by
        cases q with
        | mk qi qt qd qc qp qq qim qbl qs =>
          cases p with
          | mk pi pt pd pc pp pq pim pbl ps =>
            cases ps
            simp_all [updateFields, JsVal.or]
      refine ⟨hqp, ?_⟩
      rw [hprod, hst]
      by_cases hi : req.id = q._id
      · simp [hi, hqp]
      · simp [hi, hp]

/-- C2 at a concrete input: the owner supplies a new title and an empty
description for the stored chair. -/
theorem update_field_policy_witness :
    ∃ q, (updateProduct okEnv
        (onChair "u1" { noBody with title := .str "Stool", description := .str "" })
        (worldWith chair)).2.products chair._id = some q ∧
      q.title = .str "Stool" ∧ q.description = .str "Oak" :=
  (update_field_policy okEnv
    (onChair "u1" { noBody with title := .str "Stool", description := .str "" })
    (worldWith chair) chair (by decide) (by decide)).imp
    (fun _ h => ⟨h.1, h.2.1, h.2.2.1⟩)

/-! ## C3: the image fields after an update -/

/-- C3, as stated, fails: a product created without image (scenario 1) and then
updated by its owner with a new title and no image is persisted with neither
the image URL nor the image blob reference. -/
theorem update_image_neither_counterexample :
    (updateProduct okEnv (onChair "u1" { noBody with title := .str "Stool" })
        (createProduct okEnv createChair emptyWorld).2).1.status = 200 ∧
    (updateProduct okEnv (onChair "u1" { noBody with title := .str "Stool" })
        (createProduct okEnv createChair emptyWorld).2).2.products "p1"
      = some { chair with title := .str "Stool" } ∧
    ({ chair with title := .str "Stool" } : Product).image = .undefined ∧
    ({ chair with title := .str "Stool" } : Product).imageId = none ∧
    ¬ exactlyOneImage { chair with title := .str "Stool" } := by
  decide

/-- C3 amended: after a successful `updateProduct`, a supplied truthy image URL
is the image and the blob reference is cleared; else an uploaded file gives a
blob reference and the URL is cleared; in both cases exactly one of the two is
set.  With neither supplied both fields keep their stored values, and a product
that did not have both set does not have both set afterwards. -/
theorem update_image_fields (env : Env) (req : Request) (w : World) (p : Product)
    (hp : w.products req.id = some p)
    (hok : (updateProduct env req w).1.status = 200) :
    ∃ q, (updateProduct env req w).2.products p._id = some q ∧
      (req.body.imageUrl.truthy = true →
        q.image = req.body.imageUrl ∧ q.imageId = none ∧ exactlyOneImage q) ∧
      (req.body.imageUrl.truthy = false → ∀ f, req.file = some f →
        q.image = .undefined ∧ (∃ blob, env.uploadStream f = .ok blob ∧ q.imageId = some blob) ∧
          exactlyOneImage q) ∧
      (req.body.imageUrl.truthy = false → req.file = none →
        q.image = p.image ∧ q.imageId = p.imageId) ∧
      (¬ (p.image ≠ .undefined ∧ p.imageId ≠ none) →
        ¬ (q.image ≠ .undefined ∧ q.imageId ≠ none)) := by
  obtain ⟨-, -, hbr⟩ := updateProduct_ok hp hok
  have key : ∀ (cn : JsVal) (b : Product) (w2 : World), b._id = p._id →
      b.image = p.image → b.imageId = p.imageId →
      updateProduct env req w = updateTail env req cn b w2 →
      ∃ q, (updateProduct env req w).2.products p._id = some q ∧
      (req.body.imageUrl.truthy = true →
        q.image = req.body.imageUrl ∧ q.imageId = none ∧ exactlyOneImage q) ∧
      (req.body.imageUrl.truthy = false → ∀ f, req.file = some f →
        q.image = .undefined ∧ (∃ blob, env.uploadStream f = .ok blob ∧ q.imageId = some blob) ∧
          exactlyOneImage q) ∧
      (req.body.imageUrl.truthy = false → req.file = none →
        q.image = p.image ∧ q.imageId = p.imageId) ∧
      (¬ (p.image ≠ .undefined ∧ p.imageId ≠ none) →
        ¬ (q.image ≠ .undefined ∧ q.imageId ≠ none)) := by
    intro cn b w2 hbid hbim hbbl heq
    rw [heq] at hok ⊢
    obtain ⟨q, w1, himg, -, -, hprod, -⟩ := updateTail_ok hok
    obtain ⟨hid, -, -, -, -, -, -, -, -, hurl, hfile, hkeep⟩ := updateImage_ok himg
    have hurl2 : req.body.imageUrl.truthy = true →
        q.image = req.body.imageUrl ∧ q.imageId = none ∧ exactlyOneImage q := by
      intro hu
      obtain ⟨h1, h2⟩ := hurl hu
      refine ⟨h1, h2, Or.inl ⟨?_, h2⟩⟩
      rw [h1]
      exact truthy_ne_undefined hu
    have hfile2 : req.body.imageUrl.truthy = false → ∀ f, req.file = some f →
        q.image = .undefined ∧ (∃ blob, env.uploadStream f = .ok blob ∧ q.imageId = some blob) ∧
          exactlyOneImage q := by
      intro hu f hf
      obtain ⟨h1, blob, h2, h3⟩ := hfile hu f hf
      exact ⟨h1, ⟨blob, h2, h3⟩, Or.inr ⟨h1, by simp [h3]⟩⟩
    have hkeep2 : req.body.imageUrl.truthy = false → req.file = none →
        q.image = p.image ∧ q.imageId = p.imageId := by
      intro hu hf
      obtain ⟨h1, h2⟩ := hkeep hu hf
      exact ⟨by rw [h1]; simpa [updateFields] using hbim,
        by rw [h2]; simpa [updateFields] using hbbl⟩
    refine ⟨q, ?_, hurl2, hfile2, hkeep2, ?_⟩
    · rw [hprod]; simp [hid, updateFields, hbid]
    · intro hnb hboth
      cases hu : req.body.imageUrl.truthy
      · rcases hf : req.file with _ | f
        · obtain ⟨h1, h2⟩ := hkeep2 hu hf
          exact hnb ⟨h1 ▸ hboth.1, h2 ▸ hboth.2⟩
        · exact hboth.1 (hfile2 hu f hf).1
      · exact hboth.2 (hurl2 hu).2.1
  rcases hbr with ⟨-, -, c, -, heq⟩ | ⟨-, o, -, heq⟩
  · exact key c.name { p with category_id := req.body.category_id } _ rfl rfl rfl heq
  · exact key _ p _ rfl rfl rfl heq

/-- C3 amended at a concrete input: the owner replaces the blob-backed image
of the chair by a URL. -/
theorem update_image_fields_witness :
    ∃ q, (updateProduct okEnv
        (onChair "u1" { noBody with imageUrl := .str "http://img/chair.png" })
        (worldWith chairWithBlobs)).2.products chairWithBlobs._id = some q ∧
      q.image = .str "http://img/chair.png" ∧ q.imageId = none ∧ exactlyOneImage q :=
  (update_image_fields okEnv
    (onChair "u1" { noBody with imageUrl := .str "http://img/chair.png" })
    (worldWith chairWithBlobs) chairWithBlobs (by decide) (by decide)).imp
    (fun _ h => ⟨h.1, h.2.1 (by decide)⟩)

/-! ## C4: what the response of a create carries -/

/-- C4, as stated, fails: in scenario 1 the category resolves to Furniture and
the response is 201, but its body is the saved document, which has no
`category` property. -/
theorem create_response_category_counterexample :
    okEnv.categoryFindById createChair.body.category_id = .ok (some ⟨.str "Furniture"⟩) ∧
    (createProduct okEnv createChair emptyWorld).1 = ⟨201, .product chair⟩ ∧
    (createProduct okEnv createChair emptyWorld).1.body.prop "category" = .undefined ∧
    (createProduct okEnv createChair emptyWorld).1.body.prop "category" ≠ .str "Furniture" :=
  ⟨rfl, by decide, by decide, by decide⟩

/-- C4 amended: the body of a 201 response of `createProduct` is the saved
document; it carries the supplied `category_id` and no `category` property.
The name the category lookup returned is the `category` of the snapshot given
to the search index and to both events. -/
theorem create_response_and_category (env : Env) (req : Request) (w : World)
    (hok : (createProduct env req w).1.status = 201) :
    ∃ c q, env.categoryFindById req.body.category_id = .ok (some c) ∧
      (createProduct env req w).1 = ⟨201, .product q⟩ ∧
      (createProduct env req w).2.products q._id = some q ∧
      (createProduct env req w).1.body.prop "category_id" = req.body.category_id ∧
      (createProduct env req w).1.body.prop "category" = .undefined ∧
      Snapshot.prop ⟨q, c.name⟩ "category" = c.name ∧
      Call.sync ⟨q, c.name⟩ ∈ (createProduct env req w).2.callsSince w ∧
      Call.publish "product_events" ⟨"product_created", ⟨q, c.name⟩⟩
        ∈ (createProduct env req w).2.callsSince w ∧
      Call.publish "product_events_for_notifications" ⟨"product_created", ⟨q, c.name⟩⟩
        ∈ (createProduct env req w).2.callsSince w := by
  obtain ⟨c, q, w1, hc, -, himg, -, hresp, hprod, hlog⟩ := createProduct_ok hok
  obtain ⟨-, -, -, hcat, -, -, -, -, hl1⟩ := createImage_ok himg
  have hcalls : (createProduct env req w).2.callsSince w =
      [.findCategory req.body.category_id] ++ uploadCalls req ++
        [.save q, .sync ⟨q, c.name⟩,
         .publish "product_events" ⟨"product_created", ⟨q, c.name⟩⟩,
         .publish "product_events_for_notifications" ⟨"product_created", ⟨q, c.name⟩⟩] := by
    simp [World.callsSince, hlog, hl1]
  refine ⟨c, q, hc, hresp, ?_, ?_, ?_, ?_, ?_, ?_, ?_⟩
  · rw [hprod]; simp
  · rw [hresp]; simp [Body.prop, Product.prop, hcat, newProduct]
  · rw [hresp]; simp [Body.prop, Product.prop]
  · simp [Snapshot.prop]
  · rw [hcalls]; simp
  · rw [hcalls]; simp
  · rw [hcalls]; simp

/-- C4 amended at a concrete input: scenario 1. -/
theorem create_response_and_category_witness :
    ∃ c q, okEnv.categoryFindById createChair.body.category_id = .ok (some c) ∧
      (createProduct okEnv createChair emptyWorld).1 = ⟨201, .product q⟩ ∧
      (createProduct okEnv createChair emptyWorld).1.body.prop "category" = .undefined ∧
      Snapshot.prop ⟨q, c.name⟩ "category" = c.name :=
  (create_response_and_category okEnv createChair emptyWorld (by decide)).imp
    (fun _ h => h.imp (fun _ h => ⟨h.1, h.2.1, h.2.2.2.2.1, h.2.2.2.2.2.1⟩))

/-! ## C5: failures after the Primary Store write -/

/-- C5, as stated, fails: in scenario 1 with a search-index sync that raises,
the product is saved and stays saved, but the client receives 500, not 201. -/
theorem sync_raises_counterexample :
    syncRaisesEnv.saveErr = none ∧
    Call.save chair ∈ (createProduct syncRaisesEnv createChair emptyWorld).2.callsSince emptyWorld ∧
    (createProduct syncRaisesEnv createChair emptyWorld).2.products "p1" = some chair ∧
    (createProduct syncRaisesEnv createChair emptyWorld).1
      = ⟨500, .message "index unavailable"⟩ := by
  decide

/-- C5 amended: once the save of `createProduct` or `updateProduct`, or the
`deleteOne` of `deleteProduct`, has gone through, the Primary Store mutation
stays in place whatever the search-index call and the publishes do.  When all
of them return to the handler, also with a failure they absorbed, the
client receives the success response; when one of them raises into the
handler, the client receives 500. -/
theorem after_write_failures (env : Env) (req : Request) (w : World) (q : Product)
    (i : String) (hsave : env.saveErr = none) (hdel : env.deleteOneErr = none) :
    (Call.save q ∈ (createProduct env req w).2.callsSince w →
      (createProduct env req w).2.products q._id = some q ∧
      ((env.syncOutcome.returns = true ∧ (env.sendOutcome "product_events").returns = true ∧
          (env.sendOutcome "product_events_for_notifications").returns = true) →
        (createProduct env req w).1 = ⟨201, .product q⟩) ∧
      (¬ (env.syncOutcome.returns = true ∧ (env.sendOutcome "product_events").returns = true ∧
          (env.sendOutcome "product_events_for_notifications").returns = true) →
        (createProduct env req w).1.status = 500)) ∧
    (Call.save q ∈ (updateProduct env req w).2.callsSince w →
      (updateProduct env req w).2.products q._id = some q ∧
      ((env.syncOutcome.returns = true ∧ (env.sendOutcome "product_events").returns = true ∧
          (env.sendOutcome "product_events_for_notifications").returns = true) →
        (updateProduct env req w).1 = ⟨200, .product q⟩) ∧
      (¬ (env.syncOutcome.returns = true ∧ (env.sendOutcome "product_events").returns = true ∧
          (env.sendOutcome "product_events_for_notifications").returns = true) →
        (updateProduct env req w).1.status = 500)) ∧
    (Call.deleteOne i ∈ (deleteProduct env req w).2.callsSince w →
      (deleteProduct env req w).2.products i = none ∧
      ((env.indexDeleteOutcome.returns = true ∧
          (env.sendOutcome "product_events").returns = true ∧
          (env.sendOutcome "product_events_for_notifications").returns = true) →
        (deleteProduct env req w).1 = ⟨200, .message "Product deleted successfully"⟩) ∧
      (¬ (env.indexDeleteOutcome.returns = true ∧
          (env.sendOutcome "product_events").returns = true ∧
          (env.sendOutcome "product_events_for_notifications").returns = true) →
        (deleteProduct env req w).1.status = 500)) :=
  ⟨create_after_save env req w q hsave, update_after_save env req w q hsave,
    delete_after_deleteOne env req w i hdel⟩

/-- C5 amended at concrete inputs: a create, an update and a delete whose
search-index call and publishes fail inside the collaborators still answer
with success, and the write stays. -/
theorem after_write_failures_witness :
    ((createProduct absorbingEnv createChair emptyWorld).2.products chair._id = some chair ∧
      (createProduct absorbingEnv createChair emptyWorld).1 = ⟨201, .product chair⟩) ∧
    ((updateProduct absorbingEnv (onChair "u1" noBody) (worldWith chair)).2.products chair._id
        = some chair ∧
      (updateProduct absorbingEnv (onChair "u1" noBody) (worldWith chair)).1
        = ⟨200, .product chair⟩) ∧
    ((deleteProduct absorbingEnv (onChair "u1" noBody) (worldWith chair)).2.products "p1" = none ∧
      (deleteProduct absorbingEnv (onChair "u1" noBody) (worldWith chair)).1
        = ⟨200, .message "Product deleted successfully"⟩) :=
  ⟨((after_write_failures absorbingEnv createChair emptyWorld chair "p1" rfl rfl).1
      (by decide)).imp_right (fun h => h.1 (by decide)),
   ((after_write_failures absorbingEnv (onChair "u1" noBody) (worldWith chair) chair "p1"
      rfl rfl).2.1 (by decide)).imp_right (fun h => h.1 (by decide)),
   ((after_write_failures absorbingEnv (onChair "u1" noBody) (worldWith chair) chair "p1"
      rfl rfl).2.2 (by decide)).imp_right (fun h => h.1 (by decide))⟩

/-! ## C6: a blob deletion that fails during a delete -/

/-- C6, as stated, fails: the owner deletes a product with an image blob `b1`
and a seller profile blob `b2`, and the bucket rejects the deletion of `b1`.
The client receives 500, the deletion of `b2` is never attempted and the record
is still in the Primary Store. -/
theorem blob_failure_counterexample :
    (deleteProduct blobFailsEnv (onChair "u1" noBody) (worldWith chairWithBlobs)).1
      = ⟨500, .message "File not found"⟩ ∧
    (deleteProduct blobFailsEnv (onChair "u1" noBody) (worldWith chairWithBlobs)).2.callsSince
      (worldWith chairWithBlobs) = [.findProduct "p1", .blobDelete "b1"] ∧
    (deleteProduct blobFailsEnv (onChair "u1" noBody) (worldWith chairWithBlobs)).2.products "p1"
      = some chairWithBlobs := by
  decide

/-- C6 amended: in `deleteProduct` by the owner a failing blob deletion aborts
the operation with 500 and the record stays in the Primary Store.  When the
image blob deletion fails nothing else is attempted; when the image blob
deletion is skipped or succeeds and the profile blob deletion fails, that call
is the last one made. -/
theorem delete_blob_failure_aborts (env : Env) (req : Request) (w : World) (p : Product)
    (hfind : env.productFindErr = none) (hp : w.products req.id = some p)
    (hown : p.seller.id = req.user_id) :
    (∀ b e, p.imageId = some b → env.blobDeleteErr b = some e →
      (deleteProduct env req w).1 = ⟨500, .message e⟩ ∧
      (deleteProduct env req w).2.products = w.products ∧
      (deleteProduct env req w).2.callsSince w = [.findProduct req.id, .blobDelete b]) ∧
    (∀ b e, (∀ a, p.imageId = some a → env.blobDeleteErr a = none) →
      p.seller.profileImageId = some b → env.blobDeleteErr b = some e →
      (deleteProduct env req w).1 = ⟨500, .message e⟩ ∧
      (deleteProduct env req w).2.products = w.products ∧
      (deleteProduct env req w).2.callsSince w =
        [.findProduct req.id] ++
          (match p.imageId with
           | some a => [Call.blobDelete a]
           | none => []) ++ [.blobDelete b]) := by
  constructor
  · intro b e hi he
    simp [deleteProduct, findProductById, hfind, hp, hown, deleteBlobIfSet, gfsBucketDelete,
      hi, he, serverError, World.callsSince]
  · intro b e ha hj he
    rcases hi : p.imageId with _ | a
    · simp [deleteProduct, findProductById, hfind, hp, hown, deleteBlobIfSet, gfsBucketDelete,
        hi, hj, he, serverError, World.callsSince]
    · simp [deleteProduct, findProductById, hfind, hp, hown, deleteBlobIfSet, gfsBucketDelete,
        hi, hj, he, ha a hi, serverError, World.callsSince]

/-- C6 amended at concrete inputs: the rejected deletion of the image blob, and
the rejected deletion of the profile blob after the image blob was deleted. -/
theorem delete_blob_failure_aborts_witness :
    ((deleteProduct blobFailsEnv (onChair "u1" noBody) (worldWith chairWithBlobs)).1
        = ⟨500, .message "File not found"⟩ ∧
      (deleteProduct blobFailsEnv (onChair "u1" noBody) (worldWith chairWithBlobs)).2.products
        = (worldWith chairWithBlobs).products ∧
      (deleteProduct blobFailsEnv (onChair "u1" noBody) (worldWith chairWithBlobs)).2.callsSince
        (worldWith chairWithBlobs) = [.findProduct "p1", .blobDelete "b1"]) ∧
    ((deleteProduct profileBlobFailsEnv (onChair "u1" noBody)
        (worldWith chairWithBlobs)).1 = ⟨500, .message "File not found"⟩ ∧
      (deleteProduct profileBlobFailsEnv (onChair "u1" noBody)
        (worldWith chairWithBlobs)).2.products = (worldWith chairWithBlobs).products ∧
      (deleteProduct profileBlobFailsEnv (onChair "u1" noBody)
        (worldWith chairWithBlobs)).2.callsSince (worldWith chairWithBlobs)
        = [.findProduct "p1", .blobDelete "b1", .blobDelete "b2"]) :=
  ⟨(delete_blob_failure_aborts blobFailsEnv (onChair "u1" noBody) (worldWith chairWithBlobs)
      chairWithBlobs rfl (by decide) (by decide)).1 "b1" "File not found" (by decide)
      (by decide),
   (delete_blob_failure_aborts profileBlobFailsEnv (onChair "u1" noBody)
      (worldWith chairWithBlobs) chairWithBlobs rfl (by decide) (by decide)).2 "b2"
      "File not found"
      (fun a h => by
        have ha : a = "b1" := by simpa [chairWithBlobs] using h.symm
        subst ha
        decide)
      (by decide) (by decide)⟩

/-! ## C7: the order of the side effects of a create and of an update -/

/-- C7, as stated, fails: in scenario 1 with an uploaded picture every
collaborator succeeds, and between the validation of the category and the
save the picture is stored in the blob store. -/
theorem upload_before_save_counterexample :
    (createProduct okEnv createChairWithPhoto emptyWorld).1 = ⟨201, .product chairWithPhoto⟩ ∧
    (createProduct okEnv createChairWithPhoto emptyWorld).2.callsSince emptyWorld =
      [.findCategory (.str "c1"), .upload photo, .save chairWithPhoto,
       .sync ⟨chairWithPhoto, .str "Furniture"⟩,
       .publish "product_events" (eventOf "product_created" chairWithPhoto (.str "Furniture")),
       .publish "product_events_for_notifications"
         (eventOf "product_created" chairWithPhoto (.str "Furniture"))] ∧
    ((createProduct okEnv createChairWithPhoto emptyWorld).2.callsSince emptyWorld).drop 1 ≠
      [.save chairWithPhoto,
       .sync ⟨chairWithPhoto, .str "Furniture"⟩,
       .publish "product_events" (eventOf "product_created" chairWithPhoto (.str "Furniture")),
       .publish "product_events_for_notifications"
         (eventOf "product_created" chairWithPhoto (.str "Furniture"))] ∧
    (createProduct okEnv createChairWithPhoto emptyWorld).2.blobs "b9" = some photo := by
  decide

/-- C7 amended: in a `createProduct` or `updateProduct` that succeeds with a
search index and a publisher that do their work, the calls after the lookups
are: the upload of the picture when a file and no truthy image URL is
supplied, then the save, then the index sync, then the publish to
`product_events`, then the publish to `product_events_for_notifications`.  Both
events are the same, and their data and the indexed document are the saved
document with the category name. -/
theorem write_path_order (env : Env) (req : Request) (w : World)
    (hsync : env.syncOutcome = .done) (hsend : ∀ t, env.sendOutcome t = .done) :
    ((createProduct env req w).1.status = 201 →
      ∃ c q, env.categoryFindById req.body.category_id = .ok (some c) ∧
        (createProduct env req w).1 = ⟨201, .product q⟩ ∧
        (createProduct env req w).2.callsSince w =
          [.findCategory req.body.category_id] ++ uploadCalls req ++
            [.save q, .sync ⟨q, c.name⟩,
             .publish "product_events" (eventOf "product_created" q c.name),
             .publish "product_events_for_notifications"
               (eventOf "product_created" q c.name)] ∧
        (createProduct env req w).2.products q._id = some q ∧
        (createProduct env req w).2.index q._id = some ⟨q, c.name⟩ ∧
        (createProduct env req w).2.published = w.published ++
          [("product_events", eventOf "product_created" q c.name),
           ("product_events_for_notifications", eventOf "product_created" q c.name)]) ∧
    (∀ p, w.products req.id = some p → (updateProduct env req w).1.status = 200 →
      ∃ q cn lookedUp o, env.categoryFindById lookedUp = .ok o ∧
        (cn = resolvedName o ∨ (cn = .null ∧ (resolvedName o).truthy = false)) ∧
        (updateProduct env req w).1 = ⟨200, .product q⟩ ∧
        (updateProduct env req w).2.callsSince w =
          [.findProduct req.id, .findCategory lookedUp] ++ uploadCalls req ++
            [.save q, .sync ⟨q, cn⟩,
             .publish "product_events" (eventOf "product_updated" q cn),
             .publish "product_events_for_notifications"
               (eventOf "product_updated" q cn)] ∧
        (updateProduct env req w).2.products q._id = some q ∧
        (updateProduct env req w).2.index q._id = some ⟨q, cn⟩ ∧
        (updateProduct env req w).2.published = w.published ++
          [("product_events", eventOf "product_updated" q cn),
           ("product_events_for_notifications", eventOf "product_updated" q cn)]) := by
  constructor
  · intro hok
    obtain ⟨c, q, w1, hc, hn, himg, hsave, hresp, hprod, hlog⟩ := createProduct_ok hok
    obtain ⟨-, -, -, -, -, -, -, -, hl1⟩ := createImage_ok himg
    have hst := @createImage_stores env req (newProduct env req)
      (w.call (.findCategory req.body.category_id))
    rw [himg] at hst
    obtain ⟨hidx, hpub⟩ := createProduct_done hc hn himg hsave hsync hsend
    refine ⟨c, q, hc, hresp, ?_, ?_, ?_, ?_⟩
    · simp [World.callsSince, hlog, hl1, eventOf]
    · rw [hprod]; simp
    · rw [hidx]; simp
    · rw [hpub, hst.2.2]; simp [eventOf]
  · intro p hp hok
    obtain ⟨q, cn, lookedUp, hbr, hresp, -, hprod, hcalls, hdone⟩ :=
      updateProduct_ok_calls hp hok
    obtain ⟨hidx, hpub⟩ := hdone hsync hsend
    rcases hbr with ⟨-, -, hl, -, c, hc, hcn⟩ | ⟨-, hl, -, o, ho, hcn⟩
    · refine ⟨q, cn, lookedUp, some c, by rw [hl]; exact hc, Or.inl (by simp [resolvedName, hcn]),
        hresp, by simpa [eventOf] using hcalls, hprod, hidx, by simpa [eventOf] using hpub⟩
    · refine ⟨q, cn, lookedUp, o, by rw [hl]; exact ho, ?_,
        hresp, by simpa [eventOf] using hcalls, hprod, hidx, by simpa [eventOf] using hpub⟩
      cases ht : (resolvedName o).truthy
      · right; simp [hcn, JsVal.or, ht]
      · left; simp [hcn, JsVal.or, ht]

/-- C7 amended at concrete inputs: scenario 1 with an uploaded picture, and an
update of the stored chair by its owner. -/
theorem write_path_order_witness :
    (∃ c q, okEnv.categoryFindById createChairWithPhoto.body.category_id = .ok (some c) ∧
      (createProduct okEnv createChairWithPhoto emptyWorld).1 = ⟨201, .product q⟩ ∧
      (createProduct okEnv createChairWithPhoto emptyWorld).2.callsSince emptyWorld =
        [.findCategory createChairWithPhoto.body.category_id] ++
          uploadCalls createChairWithPhoto ++
          [.save q, .sync ⟨q, c.name⟩,
           .publish "product_events" (eventOf "product_created" q c.name),
           .publish "product_events_for_notifications"
             (eventOf "product_created" q c.name)]) ∧
    (∃ q cn, (updateProduct okEnv moveChair (worldWith chair)).1 = ⟨200, .product q⟩ ∧
      (updateProduct okEnv moveChair (worldWith chair)).2.index q._id = some ⟨q, cn⟩) :=
  ⟨((write_path_order okEnv createChairWithPhoto emptyWorld rfl (fun _ => rfl)).1
      (by decide)).imp (fun _ h => h.imp (fun _ h => ⟨h.1, h.2.1, h.2.2.1⟩)),
   ((write_path_order okEnv moveChair (worldWith chair) rfl (fun _ => rfl)).2 chair
      (by decide) (by decide)).imp
      (fun _ h => h.imp (fun _ h => h.elim (fun _ h => h.elim (fun _ h =>
        ⟨h.2.2.1, h.2.2.2.2.2.1⟩))))⟩

/-! ## C8: the category of an update -/

/-- C8, as stated, fails: the owner supplies the empty string as category id.
It differs from the stored id and resolves to no category, yet the request is
not rejected: the update succeeds and keeps the stored category. -/
theorem blank_category_counterexample :
    blankCategory.body.category_id ≠ chair.category_id ∧
    okEnv.categoryFindById blankCategory.body.category_id = .ok none ∧
    (updateProduct okEnv blankCategory (worldWith chair)).1 = ⟨200, .product chair⟩ ∧
    (updateProduct okEnv blankCategory (worldWith chair)).2.products "p1" = some chair ∧
    Call.sync ⟨chair, .str "Furniture"⟩ ∈
      (updateProduct okEnv blankCategory (worldWith chair)).2.callsSince (worldWith chair) :=
  ⟨by decide, rfl, by decide, by decide, by decide⟩

/-- C8 amended: in `updateProduct` by the owner, a supplied category id that
is truthy and whose string form differs from that of the stored one is looked
up: when no category is found the answer is 404 and nothing is saved, indexed
or published; when one is found and the update succeeds, the persisted
`category_id` is the supplied one and the index document and both events carry
the name of the new category.  A category id that is absent, falsy or equal in
string form to the stored one leaves the stored `category_id` in place, and the
name carried is the resolved name of the stored category if that is truthy,
else null. -/
theorem update_category_policy (env : Env) (req : Request) (w : World) (p : Product)
    (hfind : env.productFindErr = none) (hp : w.products req.id = some p)
    (hown : p.seller.id = req.user_id) :
    (req.body.category_id.truthy = true →
      jsString req.body.category_id ≠ jsString p.category_id →
      env.categoryFindById req.body.category_id = .ok none →
      (updateProduct env req w).1 = ⟨404, .message "Category not found"⟩ ∧
      w.sameStores (updateProduct env req w).2 ∧
      (updateProduct env req w).2.callsSince w =
        [.findProduct req.id, .findCategory req.body.category_id]) ∧
    (req.body.category_id.truthy = true →
      jsString req.body.category_id ≠ jsString p.category_id →
      ∀ c, env.categoryFindById req.body.category_id = .ok (some c) →
      (updateProduct env req w).1.status = 200 →
      ∃ q, (updateProduct env req w).2.products p._id = some q ∧
        q.category_id = req.body.category_id ∧
        (updateProduct env req w).2.callsSince w =
          [.findProduct req.id, .findCategory req.body.category_id] ++ uploadCalls req ++
            [.save q, .sync ⟨q, c.name⟩,
             .publish "product_events" (eventOf "product_updated" q c.name),
             .publish "product_events_for_notifications"
               (eventOf "product_updated" q c.name)]) ∧
    (¬ (req.body.category_id.truthy = true ∧
          jsString req.body.category_id ≠ jsString p.category_id) →
      (updateProduct env req w).1.status = 200 →
      ∃ q o, env.categoryFindById p.category_id = .ok o ∧
        (updateProduct env req w).2.products p._id = some q ∧
        q.category_id = p.category_id ∧
        (updateProduct env req w).2.callsSince w =
          [.findProduct req.id, .findCategory p.category_id] ++ uploadCalls req ++
            [.save q, .sync ⟨q, (resolvedName o).or .null⟩,
             .publish "product_events"
               (eventOf "product_updated" q ((resolvedName o).or .null)),
             .publish "product_events_for_notifications"
               (eventOf "product_updated" q ((resolvedName o).or .null))]) := by
  refine ⟨?_, ?_, ?_⟩
  · intro h1 h2 hc
    have h2b : ¬ jsString req.body.category_id = jsString p.category_id := h2
    simp [updateProduct, findProductById, hfind, hp, hown, h1, h2b, findCategoryById, hc,
      World.sameStores, World.callsSince]
  · intro h1 h2 c hc hok
    obtain ⟨q, cn, lookedUp, hbr, -, hid, hprod, hcalls, -⟩ := updateProduct_ok_calls hp hok
    rcases hbr with ⟨-, -, hl, hcat, c2, hc2, hcn⟩ | ⟨hno, -⟩
    · rw [hc] at hc2
      have hcc : c = c2 := by simpa using hc2
      subst hcc
      subst hcn
      subst hl
      exact ⟨q, hid ▸ hprod, hcat, by simpa [eventOf] using hcalls⟩
    · exact absurd ⟨h1, h2⟩ hno
  · intro hno hok
    obtain ⟨q, cn, lookedUp, hbr, -, hid, hprod, hcalls, -⟩ := updateProduct_ok_calls hp hok
    rcases hbr with ⟨h1, h2, -⟩ | ⟨-, hl, hcat, o, ho, hcn⟩
    · exact absurd ⟨h1, h2⟩ hno
    · subst hcn
      subst hl
      exact ⟨q, o, ho, hid ▸ hprod, hcat, by simpa [eventOf] using hcalls⟩

/-- C8 amended at concrete inputs: scenario 3 (the chair moves to category
`c2`), a move to a category that does not exist, the empty category id, and a
numeric category id whose digits are those of the stored id but whose printed
form is not: it is looked up as a new category. -/
theorem update_category_policy_witness :
    ((updateProduct okEnv (onChair "u1" { noBody with category_id := .str "c7" })
        (worldWith chair)).1 = ⟨404, .message "Category not found"⟩ ∧
      (worldWith chair).sameStores
        (updateProduct okEnv (onChair "u1" { noBody with category_id := .str "c7" })
          (worldWith chair)).2) ∧
    (∃ q, (updateProduct okEnv moveChair (worldWith chair)).2.products chair._id = some q ∧
      q.category_id = .str "c2" ∧
      (updateProduct okEnv moveChair (worldWith chair)).2.callsSince (worldWith chair) =
        [.findProduct "p1", .findCategory (.str "c2")] ++ uploadCalls moveChair ++
          [.save q, .sync ⟨q, .str "Garden"⟩,
           .publish "product_events" (eventOf "product_updated" q (.str "Garden")),
           .publish "product_events_for_notifications"
             (eventOf "product_updated" q (.str "Garden"))]) ∧
    (∃ q o, okEnv.categoryFindById chair.category_id = .ok o ∧
      (updateProduct okEnv blankCategory (worldWith chair)).2.products chair._id = some q ∧
      q.category_id = chair.category_id) ∧
    ((updateProduct okEnv numericCategory (worldWith chairInLongCategory)).1
        = ⟨404, .message "Category not found"⟩ ∧
      (updateProduct okEnv numericCategory (worldWith chairInLongCategory)).2.callsSince
        (worldWith chairInLongCategory) =
        [.findProduct "p1", .findCategory numericCategory.body.category_id]) :=
  ⟨((update_category_policy okEnv (onChair "u1" { noBody with category_id := .str "c7" })
      (worldWith chair) chair rfl (by decide) (by decide)).1 (by decide) (by decide) rfl).imp_right
      (fun h => h.1),
   (update_category_policy okEnv moveChair (worldWith chair) chair rfl (by decide)
      (by decide)).2.1 (by decide) (by decide) ⟨.str "Garden"⟩ rfl (by decide),
   ((update_category_policy okEnv blankCategory (worldWith chair) chair rfl (by decide)
      (by decide)).2.2 (by decide) (by decide)).imp
      (fun _ h => h.imp (fun _ h => ⟨h.1, h.2.1, h.2.2.1⟩)),
   (fun h => ⟨h.1, h.2.2⟩)
     ((update_category_policy okEnv numericCategory (worldWith chairInLongCategory)
        chairInLongCategory rfl (by decide) (by decide)).1 (by decide) (by decide) rfl)⟩

/-! ## C9: the category check of a create -/

/-- C9 on the code: category `c3` exists and its name is the empty string.
`createProduct` answers 404 "Category not found" for it and makes no call but
the lookup, while `updateProduct` accepts a move of the chair to that same
category. -/
theorem create_unnamed_category_rejected :
    okEnv.categoryFindById createInUnnamed.body.category_id = .ok (some ⟨.str ""⟩) ∧
    (createProduct okEnv createInUnnamed emptyWorld).1
      = ⟨404, .message "Category not found"⟩ ∧
    (createProduct okEnv createInUnnamed emptyWorld).2.callsSince emptyWorld
      = [.findCategory (.str "c3")] ∧
    (updateProduct okEnv (onChair "u1" { noBody with category_id := .str "c3" })
      (worldWith chair)).1 = ⟨200, .product { chair with category_id := .str "c3" }⟩ :=
  ⟨rfl, by decide, by decide, by decide⟩

/-! ## C10: a delete in which every collaborator succeeds -/

/-- C10: when the owner deletes a stored product and every collaborator
succeeds, the calls are, in this order: the lookup of the product, the deletion
of the image blob if one is set, the deletion of the seller profile blob if one
is set, the lookup of the category, the removal of the record, the removal of
the index document, the publish of `product_deleted` to `product_events` and the
same to `product_events_for_notifications`.  The data of both events is the
product as it was stored, with the resolved category name; the record, the
index document and the blobs are gone, and the response is the confirmation. -/
theorem delete_order_and_payload (env : Env) (req : Request) (w : World) (p : Product)
    (o : Option Category)
    (hfind : env.productFindErr = none) (hp : w.products req.id = some p)
    (hown : p.seller.id = req.user_id)
    (hblob : ∀ b, env.blobDeleteErr b = none)
    (hcat : env.categoryFindById p.category_id = .ok o)
    (hdel : env.deleteOneErr = none)
    (hidx : env.indexDeleteOutcome = .done)
    (hsend : ∀ t, env.sendOutcome t = .done) :
    (deleteProduct env req w).1 = ⟨200, .message "Product deleted successfully"⟩ ∧
    (deleteProduct env req w).2.callsSince w =
      [.findProduct req.id] ++ blobCalls p ++
        [.findCategory p.category_id, .deleteOne p._id, .indexDelete p._id,
         .publish "product_events" (eventOf "product_deleted" p (resolvedName o)),
         .publish "product_events_for_notifications"
           (eventOf "product_deleted" p (resolvedName o))] ∧
    (deleteProduct env req w).2.products p._id = none ∧
    (deleteProduct env req w).2.index p._id = none ∧
    (∀ b, p.imageId = some b → (deleteProduct env req w).2.blobs b = none) ∧
    (∀ b, p.seller.profileImageId = some b → (deleteProduct env req w).2.blobs b = none) ∧
    (deleteProduct env req w).2.published = w.published ++
      [("product_events", eventOf "product_deleted" p (resolvedName o)),
       ("product_events_for_notifications",
         eventOf "product_deleted" p (resolvedName o))] := by
  cases hi : p.imageId <;> cases hj : p.seller.profileImageId <;> cases o <;>
    simp [deleteProduct, deleteTail, findProductById, hfind, hp, hown, deleteBlobIfSet,
      gfsBucketDelete, hblob, resolveCategoryName, findCategoryById, hcat, deleteOne, hdel,
      deleteProductFromElastic, hidx, sendMessage, hsend, World.callsSince, blobCalls,
      resolvedName, hi, hj, World.call, eventOf]

/-- C10 at a concrete input: scenario 4, the owner deletes the chair that has
an image blob and a seller profile blob. -/
theorem delete_order_and_payload_witness :
    (deleteProduct okEnv (onChair "u1" noBody) (worldWith chairWithBlobs)).1
      = ⟨200, .message "Product deleted successfully"⟩ ∧
    (deleteProduct okEnv (onChair "u1" noBody) (worldWith chairWithBlobs)).2.callsSince
        (worldWith chairWithBlobs) =
      [.findProduct "p1"] ++ blobCalls chairWithBlobs ++
        [.findCategory chairWithBlobs.category_id, .deleteOne chairWithBlobs._id,
         .indexDelete chairWithBlobs._id,
         .publish "product_events"
           (eventOf "product_deleted" chairWithBlobs (.str "Furniture")),
         .publish "product_events_for_notifications"
           (eventOf "product_deleted" chairWithBlobs (.str "Furniture"))] ∧
    (deleteProduct okEnv (onChair "u1" noBody) (worldWith chairWithBlobs)).2.products
      chairWithBlobs._id = none :=
  (fun h => ⟨h.1, h.2.1, h.2.2.1⟩)
    (delete_order_and_payload okEnv (onChair "u1" noBody) (worldWith chairWithBlobs)
      chairWithBlobs (some ⟨.str "Furniture"⟩) rfl (by decide) (by decide) (fun _ => rfl) rfl
      rfl rfl (fun _ => rfl))

end ProductService
